import Mathlib

/-!
Verification development for the FLYTAU flight-booking application
(`main_routes/flights.py`, `main_routes/flights_crew.py`,
`main_routes/booking.py`, `main_routes/__init__.py`).

The SQL/Python business logic is shallowly embedded: database tables become
lists of rows, timestamps become integers counting minutes, SQL joins become
list lookups, and each routine under scrutiny becomes an executable Lean
function transcribed from its source.  Monetary values are embedded as
rationals.
-/

namespace FlyTau

/-- Status vocabulary of the `FlightSeats.Seat_Status` column
(`'Available' | 'Sold' | 'Blocked'`). -/
inductive SeatStatus
  | Available
  | Sold
  | Blocked
deriving DecidableEq, Repr

/-- Status vocabulary of the `Flights.Status` column
(`'Active' | 'Full-Occupied' | 'Completed' | 'Cancelled'`). -/
inductive FlightStatus
  | Active
  | FullOccupied
  | Completed
  | Cancelled
deriving DecidableEq, Repr

/-- Status vocabulary of the `Orders.Status` column
(`'Active' | 'Completed' | 'Cancelled-Customer' | 'Cancelled-System'`). -/
inductive OrderStatus
  | Active
  | Completed
  | CancelledCustomer
  | CancelledSystem
deriving DecidableEq, Repr

/-- Aircraft size (`Aircrafts.Size`): `'Small' | 'Large'`. -/
inductive Size
  | Small
  | Large
deriving DecidableEq, Repr

/-- `LONG_FLIGHT_THRESHOLD_MINUTES = 360` from `main_routes/__init__.py`
(six hours). -/
def LONG_FLIGHT_THRESHOLD_MINUTES : Int := 360

/-- A row of `Flights` joined with its `Flight_Routes` row, as used by the
crew-availability SQL (`JOIN Flight_Routes r2 ON f2.Route_id = r2.Route_id`).
`dep` is the departure timestamp in minutes; the arrival is derived. -/
structure CrewFlight where
  fid : Nat
  dep : Int
  dur : Int
  origin : String
  dest : String
  status : FlightStatus
deriving DecidableEq, Repr

/-- Derived arrival time: `DATE_ADD(f.Dep_DateTime, INTERVAL r.Duration_Minutes MINUTE)`
(`_compute_arrival` in `flights.py`). -/
def CrewFlight.arr (f : CrewFlight) : Int := f.dep + f.dur

/-- A row of `Pilots` or `FlightAttendants`: id plus
`COALESCE(Long_Haul_Certified, 0)` collapsed to a `Bool`. -/
structure CrewMember where
  cid : Nat
  longHaulCertified : Bool
deriving DecidableEq, Repr

/-- The tables consulted by `_has_enough_crew_for_window`:
`Pilots`, `FlightAttendants`, `Flights ⋈ Flight_Routes`, and the two
assignment tables `FlightCrew_Pilots` / `FlightCrew_Attendants`
(pairs of crew id and flight id). -/
structure CrewDB where
  flights : List CrewFlight
  pilots : List CrewMember
  attendants : List CrewMember
  pilotAssigns : List (Nat × Nat)
  attAssigns : List (Nat × Nat)
deriving DecidableEq, Repr

/-- The clause `fcp.Flight_id <> %s` where the parameter is either a real
flight id (edit mode) or the sentinel `"__NEW__"` (new mode, matching no
flight id at all). -/
def notIgnored : Option Nat → Nat → Bool
  | none, _ => true
  | some i, fid => fid != i

/-- The join of an assignment table with `Flights ⋈ Flight_Routes` for one
crew member: all flights `f2` such that some assignment row links `cid`
to `f2.fid`. -/
def assignedFlights (flights : List CrewFlight) (assigns : List (Nat × Nat))
    (cid : Nat) : List CrewFlight :=
  flights.filter (fun f => assigns.any (fun a => a.1 == cid && a.2 == f.fid))

/-- First `NOT EXISTS` subquery of `_has_enough_crew_for_window`: the crew
member has an assignment (any status, the subquery has no status filter)
other than the ignored flight whose window intersects `(dep, arr)`:
`NOT (f2.arr <= dep OR f2.dep >= arr)`. -/
def overlapExists (flights : List CrewFlight) (assigns : List (Nat × Nat))
    (cid : Nat) (dep arr : Int) (ignore : Option Nat) : Bool :=
  (assignedFlights flights assigns cid).any (fun f2 =>
    notIgnored ignore f2.fid && !(f2.arr ≤ dep || f2.dep ≥ arr))

/-- Second `NOT EXISTS` subquery (new-flight mode): some non-cancelled
assignment departing strictly before `dep`, whose departure equals the
`MAX` departure over all such assignments, has
`Destination_Airport_code <> origin`. -/
def prevViolation (flights : List CrewFlight) (assigns : List (Nat × Nat))
    (cid : Nat) (dep : Int) (origin : String) (ignore : Option Nat) : Bool :=
  let prior := (assignedFlights flights assigns cid).filter (fun f =>
    notIgnored ignore f.fid && f.dep < dep && f.status != FlightStatus.Cancelled)
  prior.any (fun f2 =>
    f2.dest != origin && prior.all (fun f3 => f3.dep ≤ f2.dep))

/-- Third `NOT EXISTS` subquery (new-flight mode): some non-cancelled
assignment departing strictly after `arr`, whose departure equals the
`MIN` departure over all such assignments, has
`Origin_Airport_code <> dest`. -/
def nextViolation (flights : List CrewFlight) (assigns : List (Nat × Nat))
    (cid : Nat) (arr : Int) (dest : String) (ignore : Option Nat) : Bool :=
  let future := (assignedFlights flights assigns cid).filter (fun f =>
    notIgnored ignore f.fid && f.dep > arr && f.status != FlightStatus.Cancelled)
  future.any (fun f2 =>
    f2.origin != dest && future.all (fun f3 => f2.dep ≤ f3.dep))

/-- Certification clause `(%s = 0 OR COALESCE(Long_Haul_Certified, 0) = 1)`. -/
def certOk (longFlag : Bool) (c : CrewMember) : Bool :=
  !longFlag || c.longHaulCertified

/-- The `WHERE` clause of the new-flight-mode crew count queries in
`_has_enough_crew_for_window`, for one crew member. -/
def eligibleNew (flights : List CrewFlight) (assigns : List (Nat × Nat))
    (longFlag : Bool) (dep arr : Int) (origin dest : String)
    (c : CrewMember) : Bool :=
  certOk longFlag c
    && !(overlapExists flights assigns c.cid dep arr none)
    && !(prevViolation flights assigns c.cid dep origin none)
    && !(nextViolation flights assigns c.cid arr dest none)

/-- The `WHERE` clause of the edit-mode crew count queries in
`_has_enough_crew_for_window`, for one crew member (only the time-overlap
subquery, excluding the edited flight, plus certification). -/
def eligibleEdit (flights : List CrewFlight) (assigns : List (Nat × Nat))
    (longFlag : Bool) (dep arr : Int) (i : Nat) (c : CrewMember) : Bool :=
  certOk longFlag c
    && !(overlapExists flights assigns c.cid dep arr (some i))

/-- `_required_crew_for_size` from `flights.py`: `("Large" → (3, 6))`,
otherwise `(2, 3)` (pilots, attendants). -/
def requiredCrewForSize : Size → Nat × Nat
  | Size.Large => (3, 6)
  | Size.Small => (2, 3)

/-- Long-haul test performed inside `_has_enough_crew_for_window`:
`duration_minutes = (arr - dep)` in minutes, long iff strictly greater
than the threshold. -/
def crewWindowIsLong (dep arr : Int) : Bool :=
  arr - dep > LONG_FLIGHT_THRESHOLD_MINUTES

/-- `_has_enough_crew_for_window` from `flights.py`.  Counts pilots and
attendants that satisfy the respective `WHERE` clause and compares the
counts to `_required_crew_for_size`.  `ignore = some i` is the edit mode
(`ignore_flight_id` provided), `none` the new-flight mode. -/
def hasEnoughCrewForWindow (db : CrewDB) (dep arr : Int) (size : Size)
    (origin dest : String) (ignore : Option Nat) : Bool :=
  let req := requiredCrewForSize size
  let longFlag := crewWindowIsLong dep arr
  match ignore with
  | some i =>
      let pilotsAvail :=
        (db.pilots.filter (eligibleEdit db.flights db.pilotAssigns longFlag dep arr i)).length
      let attsAvail :=
        (db.attendants.filter (eligibleEdit db.flights db.attAssigns longFlag dep arr i)).length
      decide (req.1 ≤ pilotsAvail) && decide (req.2 ≤ attsAvail)
  | none =>
      let pilotsAvail :=
        (db.pilots.filter (eligibleNew db.flights db.pilotAssigns longFlag dep arr origin dest)).length
      let attsAvail :=
        (db.attendants.filter (eligibleNew db.flights db.attAssigns longFlag dep arr origin dest)).length
      decide (req.1 ≤ pilotsAvail) && decide (req.2 ≤ attsAvail)

/-- Crew-eligibility conditions exactly as the specification states them for
a NEW flight: (1) no time overlap with any other assignment, touching
endpoints permitted; (2) long-haul certification when the flight is
long-haul; (3) the most recent prior non-cancelled assignment (by departure
before this departure), if any, ends at this flight's origin airport;
(4) the earliest future non-cancelled assignment (by departure after this
arrival), if any, starts at this flight's destination airport. -/
def SpecEligibleNew (flights : List CrewFlight) (assigns : List (Nat × Nat))
    (isLong : Bool) (dep arr : Int) (origin dest : String) (c : CrewMember) : Prop :=
  (∀ f2 ∈ assignedFlights flights assigns c.cid, f2.arr ≤ dep ∨ arr ≤ f2.dep)
  ∧ (isLong = true → c.longHaulCertified = true)
  ∧ (∀ f2 ∈ assignedFlights flights assigns c.cid,
       f2.dep < dep → f2.status ≠ FlightStatus.Cancelled →
       (∀ f3 ∈ assignedFlights flights assigns c.cid,
          f3.dep < dep → f3.status ≠ FlightStatus.Cancelled → f3.dep ≤ f2.dep) →
       f2.dest = origin)
  ∧ (∀ f2 ∈ assignedFlights flights assigns c.cid,
       arr < f2.dep → f2.status ≠ FlightStatus.Cancelled →
       (∀ f3 ∈ assignedFlights flights assigns c.cid,
          arr < f3.dep → f3.status ≠ FlightStatus.Cancelled → f2.dep ≤ f3.dep) →
       f2.origin = dest)

instance instDecSpecEligibleNew (flights : List CrewFlight)
    (assigns : List (Nat × Nat)) (isLong : Bool) (dep arr : Int)
    (origin dest : String) (c : CrewMember) :
    Decidable (SpecEligibleNew flights assigns isLong dep arr origin dest c) := by
  unfold SpecEligibleNew
  exact inferInstance

/-- A row of `Flight_Routes`. -/
structure Route where
  rid : Nat
  origin : String
  dest : String
  dur : Int
deriving DecidableEq, Repr

/-- A row of `Flights` as used by the aircraft positioning and conflict
queries (route data accessed through the join). -/
structure AircraftFlight where
  fid : Nat
  aircraftId : Nat
  routeId : Nat
  dep : Int
  status : FlightStatus
deriving DecidableEq, Repr

/-- The tables consulted by `_aircraft_location_ok` and
`_aircraft_has_conflict`. -/
structure FleetDB where
  routes : List Route
  flights : List AircraftFlight
deriving DecidableEq, Repr

/-- The inner join `Flights f JOIN Flight_Routes r ON f.Route_id = r.Route_id`:
flights whose route id resolves, paired with their route row. -/
def joinedFlights (db : FleetDB) : List (AircraftFlight × Route) :=
  db.flights.filterMap (fun f =>
    (db.routes.find? (fun r => r.rid == f.routeId)).map (fun r => (f, r)))

/-- Derived arrival of a joined flight row:
`DATE_ADD(f.Dep_DateTime, INTERVAL r.Duration_Minutes MINUTE)`. -/
def arrOf (fr : AircraftFlight × Route) : Int := fr.1.dep + fr.2.dur

/-- `_aircraft_has_conflict` from `flights.py`: the aircraft has a
non-cancelled flight whose derived window intersects `(dep, arr)`,
excluding `ignore_flight_id` when provided. -/
def aircraftHasConflict (db : FleetDB) (aid : Nat) (dep arr : Int)
    (ignore : Option Nat) : Bool :=
  (joinedFlights db).any (fun fr =>
    fr.1.aircraftId == aid && fr.1.status != FlightStatus.Cancelled
      && !(arrOf fr ≤ dep || fr.1.dep ≥ arr) && notIgnored ignore fr.1.fid)

/-- `ORDER BY key DESC LIMIT 1`: one row attaining the maximal key (the
first such row in list order, ties in SQL being unspecified). -/
def pickMaxBy (key : α → Int) : List α → Option α
  | [] => none
  | x :: xs => some (xs.foldl (fun b y => if key y > key b then y else b) x)

/-- `ORDER BY key ASC LIMIT 1`: one row attaining the minimal key. -/
def pickMinBy (key : α → Int) : List α → Option α
  | [] => none
  | x :: xs => some (xs.foldl (fun b y => if key y < key b then y else b) x)

/-- Candidate previous flights in `_aircraft_location_ok`: the aircraft's
non-cancelled joined flights whose derived arrival is at or before
`cutoff` (the source passes `arr_dt` as the cutoff). -/
def prevCandidates (db : FleetDB) (aid : Nat) (cutoff : Int) :
    List (AircraftFlight × Route) :=
  (joinedFlights db).filter (fun fr =>
    fr.1.aircraftId == aid && fr.1.status != FlightStatus.Cancelled
      && arrOf fr ≤ cutoff)

/-- Candidate next flights in `_aircraft_location_ok`: the aircraft's
non-cancelled joined flights departing at or after `cutoff` (`arr_dt`). -/
def nextCandidates (db : FleetDB) (aid : Nat) (cutoff : Int) :
    List (AircraftFlight × Route) :=
  (joinedFlights db).filter (fun fr =>
    fr.1.aircraftId == aid && fr.1.status != FlightStatus.Cancelled
      && fr.1.dep ≥ cutoff)

/-- Previous-flight check of `_aircraft_location_ok`: the row selected by
`ORDER BY LastArrive DESC LIMIT 1` (if any) must land at `origin`. -/
def prevRuleOk (db : FleetDB) (aid : Nat) (cutoff : Int) (origin : String) : Bool :=
  match pickMaxBy arrOf (prevCandidates db aid cutoff) with
  | none => true
  | some fr => fr.2.dest == origin

/-- Next-flight check of `_aircraft_location_ok`: the row selected by
`ORDER BY f2.Dep_DateTime ASC LIMIT 1` (if any) must depart from `dest`. -/
def nextRuleOk (db : FleetDB) (aid : Nat) (cutoff : Int) (dest : String) : Bool :=
  match pickMinBy (fun fr => fr.1.dep) (nextCandidates db aid cutoff) with
  | none => true
  | some fr => fr.2.origin == dest

/-- `_aircraft_location_ok` from `flights.py`.  The completeness guard on
falsy inputs is not representable (all arguments are typed and present);
edit mode (`ignore_flight_id` provided) returns `True` unconditionally.
For new flights: the previous-flight query selects, among the aircraft's
non-cancelled flights with derived arrival `<= arr_dt`, the one with the
latest arrival (`ORDER BY LastArrive DESC LIMIT 1`) and requires its
destination to equal the new route's origin; the next-flight query selects,
among those departing `>= arr_dt`, the earliest departure and requires its
origin to equal the new route's destination. -/
def aircraftLocationOk (db : FleetDB) (aid routeId : Nat) (dep dur : Int)
    (ignore : Option Nat) : Bool :=
  match ignore with
  | some _ => true
  | none =>
    match db.routes.find? (fun r => r.rid == routeId) with
    | none => true
    | some route =>
      let arr := dep + dur
      prevRuleOk db aid arr route.origin && nextRuleOk db aid arr route.dest

/-- Aircraft positioning rule exactly as the specification claims it for a
brand-new flight: the most recent non-cancelled flight whose arrival is at
or before this flight's DEPARTURE (`prevCutoff = dep`), if any, lands at
the route's origin; the earliest non-cancelled flight departing at or
after this flight's arrival, if any, departs from the route's destination;
vacuously allowed when no such flight exists. -/
def SpecAircraftPositionOk (db : FleetDB) (aid : Nat) (origin dest : String)
    (prevCutoff nextCutoff : Int) : Prop :=
  (∀ fr ∈ prevCandidates db aid prevCutoff,
     (∀ other ∈ prevCandidates db aid prevCutoff, arrOf other ≤ arrOf fr) →
     fr.2.dest = origin)
  ∧ (∀ fr ∈ nextCandidates db aid nextCutoff,
     (∀ other ∈ nextCandidates db aid nextCutoff, fr.1.dep ≤ other.1.dep) →
     fr.2.origin = dest)

instance instDecSpecAircraftPositionOk (db : FleetDB) (aid : Nat)
    (origin dest : String) (prevCutoff nextCutoff : Int) :
    Decidable (SpecAircraftPositionOk db aid origin dest prevCutoff nextCutoff) := by
  unfold SpecAircraftPositionOk
  exact inferInstance

/-- A fleet state on which the positioning claim and the code disagree:
aircraft 1 has one non-cancelled flight on route 1 (`AAA → BBB`) departing
at minute 0 and arriving at minute 60; the candidate new flight uses route
2 (`CCC → DDD`), departs at minute 40 and arrives at minute 100. -/
def cexC2FleetDB : FleetDB :=
  ⟨[⟨1, "AAA", "BBB", 60⟩, ⟨2, "CCC", "DDD", 60⟩],
   [⟨1, 1, 1, 0, FlightStatus.Active⟩]⟩

/-- A fleet state for the C2 witness: route 2 exists, the aircraft has no
flights at all, so both continuity rules hold vacuously. -/
def witC2FleetDB : FleetDB := ⟨[⟨2, "CCC", "DDD", 60⟩], []⟩

/-- Crew-eligibility conditions exactly as the specification states them for
an EDIT of an existing flight: only the time-overlap rule (excluding the
flight being edited) and the long-haul certification rule; both
location-continuity rules are skipped. -/
def SpecEligibleEdit (flights : List CrewFlight) (assigns : List (Nat × Nat))
    (isLong : Bool) (dep arr : Int) (i : Nat) (c : CrewMember) : Prop :=
  (∀ f2 ∈ assignedFlights flights assigns c.cid, f2.fid ≠ i →
    (f2.arr ≤ dep ∨ arr ≤ f2.dep))
  ∧ (isLong = true → c.longHaulCertified = true)

instance instDecSpecEligibleEdit (flights : List CrewFlight)
    (assigns : List (Nat × Nat)) (isLong : Bool) (dep arr : Int) (i : Nat)
    (c : CrewMember) :
    Decidable (SpecEligibleEdit flights assigns isLong dep arr i c) := by
  unfold SpecEligibleEdit
  exact inferInstance

/-- The regular (non-cancellation) validation chain of `manager_edit_flight`
for an Active/Completed save: long-haul aircraft-size rule, the
Completed-only-after-arrival rule, `_aircraft_has_conflict` with the edited
flight excluded, `_aircraft_location_ok` in edit mode, then
`_has_enough_crew_for_window` in edit mode. -/
def managerEditRegularOk (fdb : FleetDB) (cdb : CrewDB) (aid routeId fid : Nat)
    (size : Size) (dep dur : Int) (origin dest : String)
    (newStatus : FlightStatus) (now : Int) : Bool :=
  let arr := dep + dur
  let longRoute := dur > LONG_FLIGHT_THRESHOLD_MINUTES
  if longRoute && size != Size.Large then false
  else if newStatus == FlightStatus.Completed && arr > now then false
  else if aircraftHasConflict fdb aid dep arr (some fid) then false
  else if !(aircraftLocationOk fdb aid routeId dep dur (some fid)) then false
  else hasEnoughCrewForWindow cdb dep arr size origin dest (some fid)

/-- Crew state for the C9 witness: two pilots and three attendants with no
assignments at all. -/
def witC9CrewDB : CrewDB :=
  ⟨[], [⟨1, false⟩, ⟨2, false⟩], [⟨1, false⟩, ⟨2, false⟩, ⟨3, false⟩], [], []⟩

/-- Fleet state for the C9 witness: no routes and no flights. -/
def witC9FleetDB : FleetDB := ⟨[], []⟩

/-- A row of `FlightSeats`: seat id, owning flight, price, status. -/
structure SeatRow where
  sid : Nat
  fid : Nat
  price : ℚ
  status : SeatStatus
deriving DecidableEq, Repr

/-- A row of `Tickets`: links a FlightSeat to an Order. -/
structure TicketRow where
  seatId : Nat
  orderCode : Nat
deriving DecidableEq, Repr

/-- A row of `Orders` (fields used by booking/cancellation logic). -/
structure OrderRow where
  code : Nat
  status : OrderStatus
  flightId : Nat
  email : String
  guest : Bool
deriving DecidableEq, Repr

/-- A row of `Flights` as used by the booking module. -/
structure BookingFlight where
  fid : Nat
  dep : Int
  status : FlightStatus
deriving DecidableEq, Repr

/-- The tables consulted by the booking / status-reconciliation routines. -/
structure BookingDB where
  flights : List BookingFlight
  seats : List SeatRow
  tickets : List TicketRow
  orders : List OrderRow
deriving DecidableEq, Repr

/-- The `EXISTS` subquery of `_sync_flight_seats_from_orders`: some ticket
for this seat joins an order whose status is not `'Cancelled-Customer'`. -/
def hasLiveTicket (tickets : List TicketRow) (orders : List OrderRow)
    (sid : Nat) : Bool :=
  tickets.any (fun t => t.seatId == sid && orders.any (fun o =>
    o.code == t.orderCode && o.status != OrderStatus.CancelledCustomer))

/-- The specification's phrasing of the live-ticket condition: there exists
a Ticket for that seat whose Order status is not `Cancelled-Customer`. -/
def LiveTicket (tickets : List TicketRow) (orders : List OrderRow)
    (sid : Nat) : Prop :=
  ∃ t ∈ tickets, t.seatId = sid ∧
    ∃ o ∈ orders, o.code = t.orderCode ∧ o.status ≠ OrderStatus.CancelledCustomer

instance instDecLiveTicket (tickets : List TicketRow) (orders : List OrderRow)
    (sid : Nat) : Decidable (LiveTicket tickets orders sid) := by
  unfold LiveTicket
  exact inferInstance

/-- Optional `AND fs.Flight_id = %s` filter of the sync UPDATE statements. -/
def seatInScope : Option Nat → SeatRow → Bool
  | none, _ => true
  | some f, s => s.fid == f

/-- First UPDATE of `_sync_flight_seats_from_orders`: an `'Available'` (and
not `'Blocked'`, the redundant guard is kept from the source) seat with a
live ticket becomes `'Sold'`. -/
def syncSeatPass1 (tickets : List TicketRow) (orders : List OrderRow)
    (fopt : Option Nat) (s : SeatRow) : SeatRow :=
  if s.status == SeatStatus.Available && s.status != SeatStatus.Blocked
      && seatInScope fopt s && hasLiveTicket tickets orders s.sid
  then { s with status := SeatStatus.Sold } else s

/-- Second UPDATE of `_sync_flight_seats_from_orders`: a `'Sold'` seat with
no live ticket becomes `'Available'`. -/
def syncSeatPass2 (tickets : List TicketRow) (orders : List OrderRow)
    (fopt : Option Nat) (s : SeatRow) : SeatRow :=
  if s.status == SeatStatus.Sold && s.status != SeatStatus.Blocked
      && seatInScope fopt s && !(hasLiveTicket tickets orders s.sid)
  then { s with status := SeatStatus.Available } else s

/-- Row-wise effect of one call to `_sync_flight_seats_from_orders` (the
second UPDATE runs on the table produced by the first; both read only
`Tickets` and `Orders` besides the row itself). -/
def syncSeat (tickets : List TicketRow) (orders : List OrderRow)
    (fopt : Option Nat) (s : SeatRow) : SeatRow :=
  syncSeatPass2 tickets orders fopt (syncSeatPass1 tickets orders fopt s)

/-- `_sync_flight_seats_from_orders` from `flights.py`: the two sequential
UPDATE statements over the `FlightSeats` table, optionally restricted to
one flight. -/
def syncFlightSeatsFromOrders (db : BookingDB) (fopt : Option Nat) : BookingDB :=
  { db with seats := ((db.seats.map (syncSeatPass1 db.tickets db.orders fopt)).map (syncSeatPass2 db.tickets db.orders fopt)) }

/-- Booking state for the C3 witness: one `'Sold'` seat whose only ticket
belongs to a `'Cancelled-Customer'` order. -/
def witC3DB : BookingDB :=
  ⟨[⟨1, 0, FlightStatus.Active⟩],
   [⟨1, 1, 100, SeatStatus.Sold⟩],
   [⟨1, 10⟩],
   [⟨10, OrderStatus.CancelledCustomer, 1, "a@b.c", false⟩]⟩

/-- `SELECT ... FROM FlightSeats WHERE Flight_id = %s`. -/
def seatsOfFlight (db : BookingDB) (fid : Nat) : List SeatRow :=
  db.seats.filter (fun s => s.fid == fid)

/-- The `SUM(CASE WHEN Seat_Status IN ('SOLD','BLOCKED') ...)` aggregate of
`_auto_update_full_occupied`. -/
def nonFreeCount (db : BookingDB) (fid : Nat) : Nat :=
  ((seatsOfFlight db fid).filter (fun s =>
    s.status == SeatStatus.Sold || s.status == SeatStatus.Blocked)).length

/-- `UPDATE Flights SET Status = %s WHERE Flight_id = %s`. -/
def setFlightStatus (db : BookingDB) (fid : Nat) (st : FlightStatus) : BookingDB :=
  { db with flights := db.flights.map (fun f =>
      if f.fid == fid then { f with status := st } else f) }

/-- Branch logic of `_auto_update_full_occupied` as a function of the
current status, whether the flight has zero seats (`not occ["total"]`), and
whether `non_free == total`: `none` means no UPDATE is issued, `some st`
means `UPDATE Flights SET Status = st`. -/
def fullOccupiedDecisionCore (st : FlightStatus) (isEmpty allOcc : Bool) :
    Option FlightStatus :=
  if isEmpty then none
  else if st == FlightStatus.Cancelled || st == FlightStatus.Completed then none
  else if allOcc && st != FlightStatus.FullOccupied then some FlightStatus.FullOccupied
  else if !allOcc && st == FlightStatus.FullOccupied then some FlightStatus.Active
  else none

/-- `_auto_update_full_occupied` from `flights.py`: with no seats or no
flight row it returns unchanged; `'Cancelled'`/`'Completed'` are never
overridden; it sets `'Full-Occupied'` when every seat is Sold/Blocked
(`non_free == total`) and reverts a `'Full-Occupied'` flight to `'Active'`
otherwise. -/
def autoUpdateFullOccupied (db : BookingDB) (fid : Nat) : BookingDB :=
  match db.flights.find? (fun f => f.fid == fid) with
  | none => db
  | some f =>
    match fullOccupiedDecisionCore f.status ((seatsOfFlight db fid).length == 0)
        (nonFreeCount db fid == (seatsOfFlight db fid).length) with
    | none => db
    | some st => setFlightStatus db fid st

/-- Status of the (first) `Flights` row with the given id. -/
def flightStatusOf (db : BookingDB) (fid : Nat) : Option FlightStatus :=
  (db.flights.find? (fun f => f.fid == fid)).map (fun f => f.status)

/-- Booking state falsifying C4 as stated: a flight with status `'Active'`
and no `FlightSeats` rows at all. -/
def cexC4DB : BookingDB := ⟨[⟨1, 0, FlightStatus.Active⟩], [], [], []⟩

/-- Booking state falsifying C4 for `_update_flight_full_status`: an Active
flight whose single seat still has status `'Available'` but carries a
ticket of a live (non-`'Cancelled-Customer'`) order. -/
def cexC4bDB : BookingDB :=
  ⟨[⟨1, 0, FlightStatus.Active⟩],
   [⟨1, 1, 100, SeatStatus.Available⟩],
   [⟨1, 5⟩],
   [⟨5, OrderStatus.Active, 1, "c@d.e", false⟩]⟩

/-- Booking state for the C4 witness: one flight with a single Sold seat. -/
def witC4DB : BookingDB :=
  ⟨[⟨1, 0, FlightStatus.Active⟩], [⟨1, 1, 100, SeatStatus.Sold⟩], [], []⟩

/-- One pass of the status reconciliation as invoked after a mutation:
`_sync_flight_seats_from_orders(cursor, flight_id)` followed by
`_auto_update_full_occupied(cursor, flight_id)`. -/
def statusReconcile (db : BookingDB) (fid : Nat) : BookingDB :=
  autoUpdateFullOccupied (syncFlightSeatsFromOrders db (some fid)) fid

/-- Python's `round` at 2 decimal places on the exact value: round half to
even (banker's rounding), applied to the scaled value. -/
def roundHalfToEven (x : ℚ) : Int :=
  if x - x.floor < 1 / 2 then x.floor
  else if x - x.floor > 1 / 2 then x.floor + 1
  else if x.floor % 2 = 0 then x.floor else x.floor + 1

/-- `round(value, 2)`. -/
def pyRound2 (x : ℚ) : ℚ := (roundHalfToEven (x * 100) : ℚ) / 100

/-- `fee = round(total_amount * 0.05, 2)` in `cancel_order`. -/
def cancellationFee (total : ℚ) : ℚ := pyRound2 (total * (5 / 100))

/-- `refund = max(total_amount - fee, 0.0)` in `cancel_order`. -/
def refundAmount (total : ℚ) : ℚ := max (total - cancellationFee total) 0

/-- `fee = round(total_amount * 0.05, 2)` in `guest_cancel_order`
(the guest handler repeats the computation verbatim). -/
def guestCancellationFee (total : ℚ) : ℚ := pyRound2 (total * (5 / 100))

/-- `refund = max(total_amount - fee, 0.0)` in `guest_cancel_order`. -/
def guestRefundAmount (total : ℚ) : ℚ := max (total - guestCancellationFee total) 0

/-- `SELECT COALESCE(SUM(fs.Seat_Price), 0) FROM Tickets t JOIN FlightSeats fs
ON t.FlightSeat_id = fs.FlightSeat_id WHERE t.Order_code = %s`. -/
def orderTotal (db : BookingDB) (code : Nat) : ℚ :=
  (db.tickets.filterMap (fun t =>
    if t.orderCode == code
    then (db.seats.find? (fun s => s.sid == t.seatId)).map (fun s => s.price)
    else none)).sum

/-- `_set_seat_status_for_order`: `UPDATE FlightSeats fs JOIN Tickets t ...
SET fs.Seat_Status = %s WHERE t.Order_code = %s`. -/
def setSeatStatusForOrder (db : BookingDB) (code : Nat) (st : SeatStatus) : BookingDB :=
  { db with seats := db.seats.map (fun s =>
      if db.tickets.any (fun t => t.orderCode == code && t.seatId == s.sid)
      then { s with status := st } else s) }

/-- `UPDATE Orders SET Status = %s WHERE Order_code = %s`. -/
def setOrderStatus (db : BookingDB) (code : Nat) (st : OrderStatus) : BookingDB :=
  { db with orders := db.orders.map (fun o =>
      if o.code == code then { o with status := st } else o) }

/-- `_update_flight_full_status` from `booking.py`: recompute the flight's
Full-Occupied/Active status from the number of truly available seats
(status `'Available'` and no live ticket), never touching
`'Cancelled'`/`'Completed'` flights. -/
def updateFlightFullStatus (db : BookingDB) (fid : Nat) : BookingDB :=
  match db.flights.find? (fun f => f.fid == fid) with
  | none => db
  | some f =>
    if f.status == FlightStatus.Cancelled || f.status == FlightStatus.Completed then db
    else
      let avail := (db.seats.filter (fun s => s.fid == fid
        && s.status == SeatStatus.Available
        && !(hasLiveTicket db.tickets db.orders s.sid))).length
      let newStatus := if avail == 0 then FlightStatus.FullOccupied else FlightStatus.Active
      if newStatus != f.status then setFlightStatus db fid newStatus else db

/-- `cancel_order` from `booking.py` (registered customer): looks up the
order by code and owner email (joined with its flight), rejects
already-cancelled orders and orders within 36 hours of departure with a
rollback (state unchanged), otherwise releases the order's seats to
`'Available'`, marks the order `'Cancelled-Customer'`, refreshes the
flight's full status, and reports `(fee, refund)`. -/
def cancelOrder (db : BookingDB) (code : Nat) (email : String) (now : Int) :
    BookingDB × Option (ℚ × ℚ) :=
  match db.orders.find? (fun o => o.code == code && o.email == email) with
  | none => (db, none)
  | some o =>
    match db.flights.find? (fun f => f.fid == o.flightId) with
    | none => (db, none)
    | some f =>
      if o.status == OrderStatus.CancelledCustomer
          || o.status == OrderStatus.CancelledSystem then (db, none)
      else if f.dep - now ≤ 36 * 60 then (db, none)
      else
        let total := orderTotal db code
        let fee := cancellationFee total
        let refund := refundAmount total
        let db1 := setSeatStatusForOrder db code SeatStatus.Available
        let db2 := setOrderStatus db1 code OrderStatus.CancelledCustomer
        let db3 := updateFlightFullStatus db2 o.flightId
        (db3, some (fee, refund))

/-- `guest_cancel_order` from `booking.py`: identical to `cancel_order` but
restricted to guest orders (`Customer_Type = 'Guest'`) identified through
the session's guest email, with the fee/refund lines repeated verbatim. -/
def guestCancelOrder (db : BookingDB) (code : Nat) (email : String) (now : Int) :
    BookingDB × Option (ℚ × ℚ) :=
  match db.orders.find? (fun o => o.code == code && o.email == email && o.guest) with
  | none => (db, none)
  | some o =>
    match db.flights.find? (fun f => f.fid == o.flightId) with
    | none => (db, none)
    | some f =>
      if o.status == OrderStatus.CancelledCustomer
          || o.status == OrderStatus.CancelledSystem then (db, none)
      else if f.dep - now ≤ 36 * 60 then (db, none)
      else
        let total := orderTotal db code
        let fee := guestCancellationFee total
        let refund := guestRefundAmount total
        let db1 := setSeatStatusForOrder db code SeatStatus.Available
        let db2 := setOrderStatus db1 code OrderStatus.CancelledCustomer
        let db3 := updateFlightFullStatus db2 o.flightId
        (db3, some (fee, refund))

/-- Manager flight-cancellation path of `manager_edit_flight`: flights that
already departed cannot be edited at all; the cancellation is rejected when
`time_to_dep < timedelta(hours=72)` (computed from the STORED departure);
otherwise the flight status becomes `'Cancelled'` and both crew-assignment
tables are cleared for this flight. -/
def managerCancelFlight (db : CrewDB) (fid : Nat) (now : Int) : CrewDB × Bool :=
  match db.flights.find? (fun f => f.fid == fid) with
  | none => (db, false)
  | some f =>
    if f.dep ≤ now then (db, false)
    else if f.dep - now < 72 * 60 then (db, false)
    else
      ({ db with
          flights := db.flights.map (fun g =>
            if g.fid == fid then { g with status := FlightStatus.Cancelled } else g),
          pilotAssigns := db.pilotAssigns.filter (fun a => a.2 != fid),
          attAssigns := db.attAssigns.filter (fun a => a.2 != fid) }, true)

/-- Crew state for the C6 counterexample: one active flight departing
exactly 72 hours (4320 minutes) after `now = 0`. -/
def cexC6CrewDB : CrewDB :=
  ⟨[⟨1, 4320, 60, "AAA", "BBB", FlightStatus.Active⟩], [], [], [], []⟩

/-- Booking state for the C6 witness: an Active order on a flight departing
10000 minutes after `now = 0` (more than 36 hours). -/
def witC6DB : BookingDB :=
  ⟨[⟨1, 10000, FlightStatus.Active⟩],
   [⟨1, 1, 100, SeatStatus.Sold⟩],
   [⟨1, 1⟩],
   [⟨1, OrderStatus.Active, 1, "a@b.c", false⟩]⟩

/-- Booking state for the C7 witness: one Active order for one sold seat
priced 100, flight far in the future. -/
def witC7DB : BookingDB :=
  ⟨[⟨1, 10000, FlightStatus.Active⟩],
   [⟨1, 1, 100, SeatStatus.Sold⟩],
   [⟨1, 1⟩],
   [⟨1, OrderStatus.Active, 1, "e@f.g", false⟩]⟩

/-- `Is_Long_Route` from `_get_flight_header` in `flights_crew.py`:
`duration > LONG_FLIGHT_THRESHOLD_MINUTES` (strict). -/
def isLongRouteHeader (d : Int) : Bool := d > LONG_FLIGHT_THRESHOLD_MINUTES

/-- `_flight_profile` from `main_routes/__init__.py`: returns `"long"` when
`duration_minutes >= LONG_FLIGHT_THRESHOLD_MINUTES` (NON-strict). -/
def flightProfile (d : Int) : String :=
  if d ≥ LONG_FLIGHT_THRESHOLD_MINUTES then "long" else "short"

/-- The creation-time `is_long` check in `manager_new_flight`:
`duration_minutes > LONG_FLIGHT_THRESHOLD_MINUTES` (strict). -/
def isLongCreation (d : Int) : Bool := d > LONG_FLIGHT_THRESHOLD_MINUTES

/-- The long-haul aircraft-size gate of `manager_new_flight`: creation is
rejected when `is_long and aircraft["Size"] != "Large"`. -/
def creationSizeGateOk (d : Int) (size : Size) : Bool :=
  !(isLongCreation d && size != Size.Large)

/-- The order view consumed by `_auto_complete_order_if_due`: the row's
order status joined with its flight's status. -/
structure OrderView where
  code : Nat
  orderStatus : OrderStatus
  flightStatus : FlightStatus
deriving DecidableEq, Repr

/-- `_auto_complete_order_if_due` from `booking.py`: an `'Active'` order on
a non-cancelled flight is marked `'Completed'` once `time_to_dep <= 36h`;
returns the (possibly updated) order and whether an update was issued. -/
def autoCompleteOrderIfDue (o : OrderView) (timeToDep : Int) : OrderView × Bool :=
  if o.orderStatus != OrderStatus.Active then (o, false)
  else if o.flightStatus == FlightStatus.Cancelled then (o, false)
  else if timeToDep ≤ 36 * 60 then
    ({ o with orderStatus := OrderStatus.Completed }, true)
  else (o, false)

/-- The caller-side branch of `customer_orders` (and equivalently
`booking_confirmation`): an `'Active'` order whose flight is `'Cancelled'`
is transitioned to `'Cancelled-System'`, its seats are set to `'Blocked'`,
and the flight's full status is refreshed. -/
def customerOrdersCancelSystemStep (db : BookingDB) (code : Nat) : BookingDB :=
  match db.orders.find? (fun o => o.code == code) with
  | none => db
  | some o =>
    match db.flights.find? (fun f => f.fid == o.flightId) with
    | none => db
    | some f =>
      if o.status == OrderStatus.Active && f.status == FlightStatus.Cancelled then
        let db1 := setOrderStatus db code OrderStatus.CancelledSystem
        let db2 := setSeatStatusForOrder db1 code SeatStatus.Blocked
        updateFlightFullStatus db2 o.flightId
      else db

/-- Booking state for the C10 witness: an Active order on a cancelled
flight. -/
def witC10DB : BookingDB :=
  ⟨[⟨1, 100, FlightStatus.Cancelled⟩],
   [⟨1, 1, 100, SeatStatus.Sold⟩],
   [⟨1, 1⟩],
   [⟨1, OrderStatus.Active, 1, "a@b.c", false⟩]⟩

lemma certOk_iff (longFlag : Bool) (c : CrewMember) :
    certOk longFlag c = true ↔ (longFlag = true → c.longHaulCertified = true) := by
  cases longFlag <;> simp [certOk]

lemma overlapExists_false_iff (flights : List CrewFlight)
    (assigns : List (Nat × Nat)) (cid : Nat) (dep arr : Int) :
    overlapExists flights assigns cid dep arr none = false ↔
      ∀ f2 ∈ assignedFlights flights assigns cid, f2.arr ≤ dep ∨ arr ≤ f2.dep := by
  simp only [overlapExists, notIgnored, Bool.true_and, List.any_eq_false,
    Bool.not_eq_true', Bool.or_eq_false_iff]
  constructor
  · intro h f2 hf2
    have := h f2 hf2
    rcases Decidable.em (f2.arr ≤ dep) with h1 | h1
    · exact Or.inl h1
    · right
      by_contra h2
      push_neg at h2
      simp only [decide_eq_false_iff_not, not_le, ge_iff_le] at this
      omega
  · intro h f2 hf2
    rcases h f2 hf2 with h1 | h1 <;> simp [h1, ge_iff_le]

lemma prevViolation_false_iff (flights : List CrewFlight)
    (assigns : List (Nat × Nat)) (cid : Nat) (dep : Int) (origin : String) :
    prevViolation flights assigns cid dep origin none = false ↔
      ∀ f2 ∈ assignedFlights flights assigns cid,
        f2.dep < dep → f2.status ≠ FlightStatus.Cancelled →
        (∀ f3 ∈ assignedFlights flights assigns cid,
          f3.dep < dep → f3.status ≠ FlightStatus.Cancelled → f3.dep ≤ f2.dep) →
        f2.dest = origin := by
  simp only [prevViolation, notIgnored, Bool.true_and, List.any_eq_false,
    List.mem_filter, Bool.and_eq_true, decide_eq_true_eq, bne_iff_ne, ne_eq,
    Bool.not_eq_true', List.all_eq_true, decide_eq_false_iff_not, not_not,
    not_and, gt_iff_lt]
  constructor
  · intro h f2 hf2 hdep hst hmax
    by_contra hne
    exact h f2 ⟨hf2, hdep, hst⟩ hne (fun f3 h3 => hmax f3 h3.1 h3.2.1 h3.2.2)
  · intro h f2 hf2 hne hall
    exact hne (h f2 hf2.1 hf2.2.1 hf2.2.2
      (fun f3 h3 h31 h32 => hall f3 ⟨h3, h31, h32⟩))

lemma nextViolation_false_iff (flights : List CrewFlight)
    (assigns : List (Nat × Nat)) (cid : Nat) (arr : Int) (dest : String) :
    nextViolation flights assigns cid arr dest none = false ↔
      ∀ f2 ∈ assignedFlights flights assigns cid,
        arr < f2.dep → f2.status ≠ FlightStatus.Cancelled →
        (∀ f3 ∈ assignedFlights flights assigns cid,
          arr < f3.dep → f3.status ≠ FlightStatus.Cancelled → f2.dep ≤ f3.dep) →
        f2.origin = dest := by
  simp only [nextViolation, notIgnored, Bool.true_and, List.any_eq_false,
    List.mem_filter, Bool.and_eq_true, decide_eq_true_eq, bne_iff_ne, ne_eq,
    Bool.not_eq_true', List.all_eq_true, decide_eq_false_iff_not, not_not,
    not_and, gt_iff_lt]
  constructor
  · intro h f2 hf2 hdep hst hmin
    by_contra hne
    exact h f2 ⟨hf2, hdep, hst⟩ hne (fun f3 h3 => hmin f3 h3.1 h3.2.1 h3.2.2)
  · intro h f2 hf2 hne hall
    exact hne (h f2 hf2.1 hf2.2.1 hf2.2.2
      (fun f3 h3 h31 h32 => hall f3 ⟨h3, h31, h32⟩))

lemma eligibleNew_iff_spec (flights : List CrewFlight)
    (assigns : List (Nat × Nat)) (longFlag : Bool) (dep arr : Int)
    (origin dest : String) (c : CrewMember) :
    eligibleNew flights assigns longFlag dep arr origin dest c = true ↔
      SpecEligibleNew flights assigns longFlag dep arr origin dest c := by
  unfold eligibleNew SpecEligibleNew
  simp only [Bool.and_eq_true, Bool.not_eq_true', certOk_iff,
    overlapExists_false_iff, prevViolation_false_iff, nextViolation_false_iff]
  tauto

lemma eligibleNew_eq_decide (flights : List CrewFlight)
    (assigns : List (Nat × Nat)) (longFlag : Bool) (dep arr : Int)
    (origin dest : String) (c : CrewMember) :
    eligibleNew flights assigns longFlag dep arr origin dest c =
      decide (SpecEligibleNew flights assigns longFlag dep arr origin dest c) := by
  rcases h : eligibleNew flights assigns longFlag dep arr origin dest c with _ | _
  · symm
    simp only [decide_eq_false_iff_not]
    rw [← eligibleNew_iff_spec]
    simp [h]
  · symm
    simp only [decide_eq_true_eq]
    exact (eligibleNew_iff_spec flights assigns longFlag dep arr origin dest c).mp h

/-- C1: for a NEW flight (no `ignore_flight_id`), `_has_enough_crew_for_window`
returns `True` iff the number of crew members satisfying the four
spec conditions (no time overlap with touching endpoints permitted;
long-haul certification when long-haul; predecessor continuity at the
origin airport; successor continuity at the destination airport) reaches
2 pilots and 3 attendants for Small aircraft and 3 pilots and 6 attendants
for Large aircraft; with no prior or future assignment the continuity rules
hold vacuously (the quantified conditions are empty). -/
theorem crew_sufficiency_new_flight (db : CrewDB) (dep arr : Int) (size : Size)
    (origin dest : String) :
    hasEnoughCrewForWindow db dep arr size origin dest none = true ↔
      ((requiredCrewForSize size).1 ≤
          (db.pilots.filter (fun p => decide (SpecEligibleNew db.flights db.pilotAssigns
            (crewWindowIsLong dep arr) dep arr origin dest p))).length
        ∧ (requiredCrewForSize size).2 ≤
          (db.attendants.filter (fun a => decide (SpecEligibleNew db.flights db.attAssigns
            (crewWindowIsLong dep arr) dep arr origin dest a))).length) := by
  have hp := funext (eligibleNew_eq_decide db.flights db.pilotAssigns
    (crewWindowIsLong dep arr) dep arr origin dest)
  have ha := funext (eligibleNew_eq_decide db.flights db.attAssigns
    (crewWindowIsLong dep arr) dep arr origin dest)
  unfold hasEnoughCrewForWindow
  dsimp only
  rw [hp, ha]
  simp only [Bool.and_eq_true, decide_eq_true_eq]

example :
    hasEnoughCrewForWindow
      ⟨[], [⟨1, false⟩, ⟨2, false⟩], [⟨1, false⟩, ⟨2, false⟩, ⟨3, false⟩], [], []⟩
      0 100 Size.Small "AAA" "BBB" none = true := by decide

example :
    hasEnoughCrewForWindow
      ⟨[], [⟨1, false⟩, ⟨2, false⟩], [⟨1, false⟩, ⟨2, false⟩], [], []⟩
      0 100 Size.Small "AAA" "BBB" none = false := by decide

lemma foldlMax_spec (key : α → Int) (xs : List α) (b : α) :
    (xs.foldl (fun c y => if key y > key c then y else c) b = b
        ∨ xs.foldl (fun c y => if key y > key c then y else c) b ∈ xs)
      ∧ key b ≤ key (xs.foldl (fun c y => if key y > key c then y else c) b)
      ∧ ∀ y ∈ xs, key y ≤ key (xs.foldl (fun c y => if key y > key c then y else c) b) := by
  induction xs generalizing b with
  | nil => exact ⟨Or.inl rfl, le_refl _, by simp⟩
  | cons x xs ih =>
    simp only [List.foldl_cons]
    rcases Decidable.em (key x > key b) with h | h
    · rw [if_pos h]
      obtain ⟨h1, h2, h3⟩ := ih x
      refine ⟨Or.inr ?_, by omega, ?_⟩
      · rcases h1 with h1 | h1
        · rw [h1]; exact List.mem_cons_self _ _
        · exact List.mem_cons_of_mem _ h1
      · intro y hy
        rcases List.mem_cons.mp hy with hy | hy
        · subst hy; omega
        · exact h3 y hy
    · rw [if_neg h]
      obtain ⟨h1, h2, h3⟩ := ih b
      refine ⟨?_, h2, ?_⟩
      · rcases h1 with h1 | h1
        · exact Or.inl h1
        · exact Or.inr (List.mem_cons_of_mem _ h1)
      · intro y hy
        rcases List.mem_cons.mp hy with hy | hy
        · subst hy; omega
        · exact h3 y hy

lemma foldlMin_spec (key : α → Int) (xs : List α) (b : α) :
    (xs.foldl (fun c y => if key y < key c then y else c) b = b
        ∨ xs.foldl (fun c y => if key y < key c then y else c) b ∈ xs)
      ∧ key (xs.foldl (fun c y => if key y < key c then y else c) b) ≤ key b
      ∧ ∀ y ∈ xs, key (xs.foldl (fun c y => if key y < key c then y else c) b) ≤ key y := by
  induction xs generalizing b with
  | nil => exact ⟨Or.inl rfl, le_refl _, by simp⟩
  | cons x xs ih =>
    simp only [List.foldl_cons]
    rcases Decidable.em (key x < key b) with h | h
    · rw [if_pos h]
      obtain ⟨h1, h2, h3⟩ := ih x
      refine ⟨Or.inr ?_, by omega, ?_⟩
      · rcases h1 with h1 | h1
        · rw [h1]; exact List.mem_cons_self _ _
        · exact List.mem_cons_of_mem _ h1
      · intro y hy
        rcases List.mem_cons.mp hy with hy | hy
        · subst hy; omega
        · exact h3 y hy
    · rw [if_neg h]
      obtain ⟨h1, h2, h3⟩ := ih b
      refine ⟨?_, h2, ?_⟩
      · rcases h1 with h1 | h1
        · exact Or.inl h1
        · exact Or.inr (List.mem_cons_of_mem _ h1)
      · intro y hy
        rcases List.mem_cons.mp hy with hy | hy
        · subst hy; omega
        · exact h3 y hy

lemma pickMaxBy_eq_none (key : α → Int) (l : List α) :
    pickMaxBy key l = none ↔ l = [] := by
  cases l <;> simp [pickMaxBy]

lemma pickMaxBy_eq_some (key : α → Int) (l : List α) (r : α)
    (h : pickMaxBy key l = some r) : r ∈ l ∧ ∀ y ∈ l, key y ≤ key r := by
  cases l with
  | nil => simp [pickMaxBy] at h
  | cons x xs =>
    simp only [pickMaxBy, Option.some.injEq] at h
    obtain ⟨h1, _, h3⟩ := foldlMax_spec key xs x
    subst h
    constructor
    · rcases h1 with h1 | h1
      · rw [h1]; exact List.mem_cons_self _ _
      · exact List.mem_cons_of_mem _ h1
    · intro y hy
      rcases List.mem_cons.mp hy with hy | hy
      · subst hy
        exact (foldlMax_spec key xs y).2.1
      · exact h3 y hy

lemma pickMinBy_eq_none (key : α → Int) (l : List α) :
    pickMinBy key l = none ↔ l = [] := by
  cases l <;> simp [pickMinBy]

lemma pickMinBy_eq_some (key : α → Int) (l : List α) (r : α)
    (h : pickMinBy key l = some r) : r ∈ l ∧ ∀ y ∈ l, key r ≤ key y := by
  cases l with
  | nil => simp [pickMinBy] at h
  | cons x xs =>
    simp only [pickMinBy, Option.some.injEq] at h
    obtain ⟨h1, _, h3⟩ := foldlMin_spec key xs x
    subst h
    constructor
    · rcases h1 with h1 | h1
      · rw [h1]; exact List.mem_cons_self _ _
      · exact List.mem_cons_of_mem _ h1
    · intro y hy
      rcases List.mem_cons.mp hy with hy | hy
      · subst hy
        exact (foldlMin_spec key xs y).2.1
      · exact h3 y hy

lemma prevRuleOk_iff (db : FleetDB) (aid : Nat) (cutoff : Int) (origin : String)
    (hdist : ∀ a ∈ prevCandidates db aid cutoff, ∀ b ∈ prevCandidates db aid cutoff,
      arrOf a = arrOf b → a = b) :
    prevRuleOk db aid cutoff origin = true ↔
      ∀ fr ∈ prevCandidates db aid cutoff,
        (∀ other ∈ prevCandidates db aid cutoff, arrOf other ≤ arrOf fr) →
        fr.2.dest = origin := by
  unfold prevRuleOk
  rcases hp : pickMaxBy arrOf (prevCandidates db aid cutoff) with _ | fr
  · rw [pickMaxBy_eq_none] at hp
    simp [hp]
  · obtain ⟨hmem, hmax⟩ := pickMaxBy_eq_some _ _ _ hp
    simp only [beq_iff_eq]
    constructor
    · intro h f2 hf2 hismax
      have heq : f2 = fr :=
        hdist f2 hf2 fr hmem (le_antisymm (hmax f2 hf2) (hismax fr hmem))
      rw [heq]; exact h
    · intro h
      exact h fr hmem hmax

lemma nextRuleOk_iff (db : FleetDB) (aid : Nat) (cutoff : Int) (dest : String)
    (hdist : ∀ a ∈ nextCandidates db aid cutoff, ∀ b ∈ nextCandidates db aid cutoff,
      a.1.dep = b.1.dep → a = b) :
    nextRuleOk db aid cutoff dest = true ↔
      ∀ fr ∈ nextCandidates db aid cutoff,
        (∀ other ∈ nextCandidates db aid cutoff, fr.1.dep ≤ other.1.dep) →
        fr.2.origin = dest := by
  unfold nextRuleOk
  split
  · next hp =>
    rw [pickMinBy_eq_none] at hp
    simp [hp]
  · next fr hp =>
    obtain ⟨hmem, hmin⟩ := pickMinBy_eq_some _ _ _ hp
    simp only [beq_iff_eq]
    constructor
    · intro h f2 hf2 hismin
      have heq : f2 = fr :=
        hdist f2 hf2 fr hmem (le_antisymm (hismin fr hmem) (hmin f2 hf2))
      rw [heq]; exact h
    · intro h
      exact h fr hmem hmin

/-- C2 counterexample: the claim reads the previous-flight cutoff as this
flight's DEPARTURE, under which no previous flight qualifies (arrival 60 is
after departure 40) and scheduling should be allowed; the code instead uses
this flight's ARRIVAL (minute 100) as cutoff, finds the `AAA → BBB` flight,
compares `BBB` with the new origin `CCC`, and returns `False`. -/
theorem aircraft_positioning_cex :
    ¬ ((aircraftLocationOk cexC2FleetDB 1 2 40 60 none = true) ↔
        SpecAircraftPositionOk cexC2FleetDB 1 "CCC" "DDD" 40 100) := by
  decide

/-- C2 amended: for a brand-new flight with an existing route and (to make
"the most recent" and "the earliest" well defined) pairwise-distinct
arrival keys among previous candidates and departure keys among next
candidates, `_aircraft_location_ok` returns `True` iff the aircraft's most
recent non-cancelled flight whose arrival is at or before this flight's
ARRIVAL (not its departure, as the claim stated), if any, lands at the
route's origin, and the earliest non-cancelled flight departing at or
after this flight's arrival, if any, departs from the route's destination;
with no such flights both rules hold vacuously. -/
theorem aircraft_positioning_new_flight_amended (db : FleetDB)
    (aid routeId : Nat) (dep dur : Int) (route : Route)
    (hroute : db.routes.find? (fun r => r.rid == routeId) = some route)
    (hprev : ∀ a ∈ prevCandidates db aid (dep + dur),
      ∀ b ∈ prevCandidates db aid (dep + dur), arrOf a = arrOf b → a = b)
    (hnext : ∀ a ∈ nextCandidates db aid (dep + dur),
      ∀ b ∈ nextCandidates db aid (dep + dur), a.1.dep = b.1.dep → a = b) :
    aircraftLocationOk db aid routeId dep dur none = true ↔
      SpecAircraftPositionOk db aid route.origin route.dest (dep + dur) (dep + dur) := by
  unfold aircraftLocationOk
  rw [hroute]
  dsimp only
  rw [Bool.and_eq_true, prevRuleOk_iff db aid (dep + dur) route.origin hprev,
    nextRuleOk_iff db aid (dep + dur) route.dest hnext]
  unfold SpecAircraftPositionOk
  tauto

/-- Witness for the amended C2 theorem at a concrete state. -/
theorem aircraft_positioning_new_flight_amended_witness :
    aircraftLocationOk witC2FleetDB 1 2 40 60 none = true :=
  (aircraft_positioning_new_flight_amended witC2FleetDB 1 2 40 60
    ⟨2, "CCC", "DDD", 60⟩ (by decide) (by decide) (by decide)).mpr (by decide)

lemma overlapExists_some_false_iff (flights : List CrewFlight)
    (assigns : List (Nat × Nat)) (cid : Nat) (dep arr : Int) (i : Nat) :
    overlapExists flights assigns cid dep arr (some i) = false ↔
      ∀ f2 ∈ assignedFlights flights assigns cid, f2.fid ≠ i →
        (f2.arr ≤ dep ∨ arr ≤ f2.dep) := by
  simp only [overlapExists, notIgnored, List.any_eq_false, Bool.and_eq_true,
    bne_iff_ne, ne_eq, Bool.not_eq_true', Bool.or_eq_false_iff,
    decide_eq_false_iff_not, not_and, not_not]
  constructor
  · intro h f2 hf2 hne
    rcases Decidable.em (f2.arr ≤ dep) with h1 | h1
    · exact Or.inl h1
    · refine Or.inr ?_
      have h2 := h f2 hf2 hne h1
      omega
  · intro h f2 hf2 hne h1
    rcases h f2 hf2 hne with h2 | h2
    · exact absurd h2 h1
    · omega

lemma eligibleEdit_iff_spec (flights : List CrewFlight)
    (assigns : List (Nat × Nat)) (longFlag : Bool) (dep arr : Int) (i : Nat)
    (c : CrewMember) :
    eligibleEdit flights assigns longFlag dep arr i c = true ↔
      SpecEligibleEdit flights assigns longFlag dep arr i c := by
  unfold eligibleEdit SpecEligibleEdit
  simp only [Bool.and_eq_true, Bool.not_eq_true', certOk_iff,
    overlapExists_some_false_iff]
  tauto

lemma eligibleEdit_eq_decide (flights : List CrewFlight)
    (assigns : List (Nat × Nat)) (longFlag : Bool) (dep arr : Int) (i : Nat)
    (c : CrewMember) :
    eligibleEdit flights assigns longFlag dep arr i c =
      decide (SpecEligibleEdit flights assigns longFlag dep arr i c) := by
  rcases h : eligibleEdit flights assigns longFlag dep arr i c with _ | _
  · symm
    simp only [decide_eq_false_iff_not]
    rw [← eligibleEdit_iff_spec]
    simp [h]
  · symm
    simp only [decide_eq_true_eq]
    exact (eligibleEdit_iff_spec flights assigns longFlag dep arr i c).mp h

/-- C9: when evaluating an edit to an already-scheduled flight
(`ignore_flight_id` provided): (1) the crew-sufficiency check enforces only
the time-overlap rule (excluding the flight itself) and the long-haul
certification rule, skipping both location-continuity rules; (2) the
aircraft positioning check `_aircraft_location_ok` unconditionally returns
`True`; (3) the aircraft time-overlap check is still enforced by the edit
flow (a save only validates when `_aircraft_has_conflict` is false). -/
theorem edit_mode_waivers :
    (∀ (db : CrewDB) (dep arr : Int) (size : Size) (origin dest : String) (i : Nat),
      hasEnoughCrewForWindow db dep arr size origin dest (some i) = true ↔
        ((requiredCrewForSize size).1 ≤
            (db.pilots.filter (fun p => decide (SpecEligibleEdit db.flights
              db.pilotAssigns (crewWindowIsLong dep arr) dep arr i p))).length
          ∧ (requiredCrewForSize size).2 ≤
            (db.attendants.filter (fun a => decide (SpecEligibleEdit db.flights
              db.attAssigns (crewWindowIsLong dep arr) dep arr i a))).length))
    ∧ (∀ (db : FleetDB) (aid routeId : Nat) (dep dur : Int) (i : Nat),
        aircraftLocationOk db aid routeId dep dur (some i) = true)
    ∧ (∀ (fdb : FleetDB) (cdb : CrewDB) (aid routeId fid : Nat) (size : Size)
        (dep dur : Int) (origin dest : String) (newStatus : FlightStatus) (now : Int),
        managerEditRegularOk fdb cdb aid routeId fid size dep dur origin dest newStatus now = true →
          aircraftHasConflict fdb aid dep (dep + dur) (some fid) = false) := by
  refine ⟨?_, ?_, ?_⟩
  · intro db dep arr size origin dest i
    have hp := funext (eligibleEdit_eq_decide db.flights db.pilotAssigns
      (crewWindowIsLong dep arr) dep arr i)
    have ha := funext (eligibleEdit_eq_decide db.flights db.attAssigns
      (crewWindowIsLong dep arr) dep arr i)
    unfold hasEnoughCrewForWindow
    dsimp only
    rw [hp, ha]
    simp only [Bool.and_eq_true, decide_eq_true_eq]
  · intro db aid routeId dep dur i
    rfl
  · intro fdb cdb aid routeId fid size dep dur origin dest newStatus now h
    by_contra hc
    rw [Bool.not_eq_false] at hc
    unfold managerEditRegularOk at h
    dsimp only at h
    rw [hc] at h
    simp at h

/-- Witness for C9 at a concrete state: the edit validation chain succeeds,
hence the aircraft-overlap check reports no conflict. -/
theorem edit_mode_waivers_witness :
    aircraftHasConflict witC9FleetDB 1 0 (0 + 60) (some 5) = false :=
  edit_mode_waivers.2.2 witC9FleetDB witC9CrewDB 1 7 5 Size.Small 0 60 "AAA" "BBB"
    FlightStatus.Active 0 (by decide)

lemma hasLiveTicket_iff (tickets : List TicketRow) (orders : List OrderRow)
    (sid : Nat) :
    hasLiveTicket tickets orders sid = true ↔ LiveTicket tickets orders sid := by
  simp only [hasLiveTicket, LiveTicket, List.any_eq_true, Bool.and_eq_true,
    beq_iff_eq, bne_iff_ne, ne_eq]

/-- C3: after one call of the seat-status synchronization, every FlightSeat
whose status is not `'Blocked'` is `'Sold'` iff a Ticket of a
non-`'Cancelled-Customer'` Order exists for it, and `'Available'`
otherwise; `'Blocked'` seats are never modified.  The routine acts on the
seat table as the row-wise map `syncSeat`. -/
theorem seat_status_sync (db : BookingDB) (s : SeatRow) (_hs : s ∈ db.seats) :
    (syncFlightSeatsFromOrders db none).seats
        = db.seats.map (syncSeat db.tickets db.orders none)
    ∧ (s.status = SeatStatus.Blocked → syncSeat db.tickets db.orders none s = s)
    ∧ (s.status ≠ SeatStatus.Blocked →
        (((syncSeat db.tickets db.orders none s).status = SeatStatus.Sold) ↔
            LiveTicket db.tickets db.orders s.sid)
        ∧ (¬ LiveTicket db.tickets db.orders s.sid →
            (syncSeat db.tickets db.orders none s).status = SeatStatus.Available)) := by
  refine ⟨by rw [syncFlightSeatsFromOrders, List.map_map]; rfl, ?_, ?_⟩
  · intro hb
    simp [syncSeat, syncSeatPass1, syncSeatPass2, hb]
  · intro hb
    rcases hl : hasLiveTicket db.tickets db.orders s.sid with _ | _
    · have hl' : ¬ LiveTicket db.tickets db.orders s.sid := by
        rw [← hasLiveTicket_iff, hl]
        simp
      rcases hst : s.status with _ | _ | _
      · constructor
        · simp [syncSeat, syncSeatPass1, syncSeatPass2, seatInScope, hst, hl, hl']
        · intro _
          simp [syncSeat, syncSeatPass1, syncSeatPass2, seatInScope, hst, hl]
      · constructor
        · simp [syncSeat, syncSeatPass1, syncSeatPass2, seatInScope, hst, hl, hl']
        · intro _
          simp [syncSeat, syncSeatPass1, syncSeatPass2, seatInScope, hst, hl]
      · exact absurd hst hb
    · have hl' : LiveTicket db.tickets db.orders s.sid :=
        (hasLiveTicket_iff _ _ _).mp hl
      rcases hst : s.status with _ | _ | _
      · constructor
        · simp [syncSeat, syncSeatPass1, syncSeatPass2, seatInScope, hst, hl, hl']
        · intro hc
          exact absurd hl' hc
      · constructor
        · simp [syncSeat, syncSeatPass1, syncSeatPass2, seatInScope, hst, hl, hl']
        · intro hc
          exact absurd hl' hc
      · exact absurd hst hb

/-- Witness for C3 at a concrete state: the sold seat of a
customer-cancelled order is released to `'Available'`. -/
theorem seat_status_sync_witness :
    (syncSeat witC3DB.tickets witC3DB.orders none ⟨1, 1, 100, SeatStatus.Sold⟩).status
      = SeatStatus.Available :=
  ((seat_status_sync witC3DB ⟨1, 1, 100, SeatStatus.Sold⟩ (by decide)).2.2
    (by decide)).2 (by decide)

lemma find?_map_update (l : List BookingFlight) (fid : Nat) (st : FlightStatus) :
    (l.map (fun f => if f.fid == fid then { f with status := st } else f)).find?
        (fun f => f.fid == fid)
      = (l.find? (fun f => f.fid == fid)).map (fun f => { f with status := st }) := by
  induction l with
  | nil => rfl
  | cons x xs ih =>
    by_cases hx : x.fid = fid
    · simp only [List.map_cons, List.find?_cons, hx, beq_self_eq_true, if_true]
      simp
      exact hx.symm
    · have h : (x.fid == fid) = false := by
        rw [beq_eq_false_iff_ne]; exact hx
      simp only [List.map_cons, List.find?_cons, h, Bool.false_eq_true, if_false]
      simpa using ih

lemma autoUpdateFullOccupied_eval (db : BookingDB) (fid : Nat) (f : BookingFlight)
    (hf : db.flights.find? (fun x => x.fid == fid) = some f) :
    autoUpdateFullOccupied db fid =
      match fullOccupiedDecisionCore f.status ((seatsOfFlight db fid).length == 0)
          (nonFreeCount db fid == (seatsOfFlight db fid).length) with
      | none => db
      | some st => setFlightStatus db fid st := by
  unfold autoUpdateFullOccupied
  split
  · next heq => cases hf.symm.trans heq
  · next g heq =>
    have hg : g = f := Option.some.inj (heq.symm.trans hf)
    rw [hg]

lemma length_filter_eq_iff (l : List SeatRow) (p : SeatRow → Bool) :
    (l.filter p).length = l.length ↔ ∀ s ∈ l, p s = true := by
  constructor
  · intro h
    have := List.Sublist.eq_of_length (List.filter_sublist l) h
    intro s hs
    rw [← this] at hs
    exact List.of_mem_filter hs
  · intro h
    rw [List.filter_eq_self.mpr h]

/-- C4 counterexample, both cited implementations: with zero seats every
seat is vacuously Sold/Blocked and the claim requires `'Full-Occupied'`,
but `_auto_update_full_occupied` returns without touching a flight whose
seat count is zero, leaving it `'Active'`; conversely,
`_update_flight_full_status` marks a flight `'Full-Occupied'` although one
of its seats still has status `'Available'` (the seat carries a live
ticket, so it is not counted as available), contradicting the claim's
"zero seats are 'Available'" reading. -/
theorem full_occupied_cex :
    (flightStatusOf (autoUpdateFullOccupied cexC4DB 1) 1 = some FlightStatus.Active
      ∧ ∀ s ∈ seatsOfFlight cexC4DB 1,
          s.status = SeatStatus.Sold ∨ s.status = SeatStatus.Blocked)
    ∧ (flightStatusOf (updateFlightFullStatus cexC4bDB 1) 1 = some FlightStatus.FullOccupied
      ∧ ∃ s ∈ seatsOfFlight cexC4bDB 1, s.status = SeatStatus.Available) := by
  decide

/-- Behaviour of `_auto_update_full_occupied` for a flight that exists and
has at least one FlightSeat: `'Cancelled'`/`'Completed'` are untouched,
otherwise the status ends `'Full-Occupied'` iff every seat is `'Sold'` or
`'Blocked'`, and a `'Full-Occupied'` flight reverts to `'Active'` when not
every seat is occupied. -/
lemma autoUpdateFullOccupied_spec (db : BookingDB) (fid : Nat) (f : BookingFlight)
    (hf : db.flights.find? (fun x => x.fid == fid) = some f)
    (hne : seatsOfFlight db fid ≠ []) :
    (f.status ≠ FlightStatus.Cancelled → f.status ≠ FlightStatus.Completed →
      (flightStatusOf (autoUpdateFullOccupied db fid) fid = some FlightStatus.FullOccupied ↔
        ∀ s ∈ seatsOfFlight db fid,
          s.status = SeatStatus.Sold ∨ s.status = SeatStatus.Blocked))
    ∧ (f.status = FlightStatus.FullOccupied →
        ¬ (∀ s ∈ seatsOfFlight db fid,
            s.status = SeatStatus.Sold ∨ s.status = SeatStatus.Blocked) →
        flightStatusOf (autoUpdateFullOccupied db fid) fid = some FlightStatus.Active)
    ∧ ((f.status = FlightStatus.Cancelled ∨ f.status = FlightStatus.Completed) →
        autoUpdateFullOccupied db fid = db) := by
  have hlen : ((seatsOfFlight db fid).length == 0) = false := by
    simp only [beq_eq_false_iff_ne, ne_eq, List.length_eq_zero]
    exact hne
  have hocc : (nonFreeCount db fid == (seatsOfFlight db fid).length) = true ↔
      ∀ s ∈ seatsOfFlight db fid,
        s.status = SeatStatus.Sold ∨ s.status = SeatStatus.Blocked := by
    rw [beq_iff_eq, nonFreeCount, length_filter_eq_iff]
    constructor
    · intro h s hs
      have := h s hs
      simp only [Bool.or_eq_true, beq_iff_eq] at this
      exact this
    · intro h s hs
      simp only [Bool.or_eq_true, beq_iff_eq]
      exact h s hs
  have heval := autoUpdateFullOccupied_eval db fid f hf
  rw [hlen] at heval
  refine ⟨?_, ?_, ?_⟩
  · intro hc1 hc2
    have hC : (f.status == FlightStatus.Cancelled) = false := by
      rw [beq_eq_false_iff_ne]; exact hc1
    have hP : (f.status == FlightStatus.Completed) = false := by
      rw [beq_eq_false_iff_ne]; exact hc2
    rcases hall : (nonFreeCount db fid == (seatsOfFlight db fid).length) with _ | _
    · rw [hall] at heval
      have hfo : ¬ (∀ s ∈ seatsOfFlight db fid,
          s.status = SeatStatus.Sold ∨ s.status = SeatStatus.Blocked) := by
        rw [← hocc, hall]
        simp
      rcases hst : (f.status == FlightStatus.FullOccupied) with _ | _
      · have hcore : fullOccupiedDecisionCore f.status false false = none := by
          simp [fullOccupiedDecisionCore, hC, hP, hst]
        rw [hcore] at heval
        rw [heval]
        simp only [flightStatusOf, hf, Option.map_some']
        constructor
        · intro h
          have hfs := Option.some.inj h
          rw [hfs] at hst
          simp at hst
        · intro h
          exact absurd h hfo
      · have hcore : fullOccupiedDecisionCore f.status false false
            = some FlightStatus.Active := by
          simp [fullOccupiedDecisionCore, hC, hP, hst]
        rw [hcore] at heval
        rw [heval]
        have hs2 : flightStatusOf (setFlightStatus db fid FlightStatus.Active) fid
            = some FlightStatus.Active := by
          simp only [flightStatusOf, setFlightStatus, find?_map_update, hf,
            Option.map_some']
        rw [hs2]
        constructor
        · intro h
          have := Option.some.inj h
          exact absurd this (by decide)
        · intro h
          exact absurd h hfo
    · rw [hall] at heval
      have hall' := hocc.mp hall
      rcases hst : (f.status == FlightStatus.FullOccupied) with _ | _
      · have hcore : fullOccupiedDecisionCore f.status false true
            = some FlightStatus.FullOccupied := by
          simp [fullOccupiedDecisionCore, hC, hP, hst, beq_eq_false_iff_ne.mp hst]
        rw [hcore] at heval
        rw [heval]
        have hs2 : flightStatusOf (setFlightStatus db fid FlightStatus.FullOccupied) fid
            = some FlightStatus.FullOccupied := by
          simp only [flightStatusOf, setFlightStatus, find?_map_update, hf,
            Option.map_some']
        rw [hs2]
        exact ⟨fun _ => hall', fun _ => rfl⟩
      · have hfs : f.status = FlightStatus.FullOccupied := by simpa using hst
        have hcore : fullOccupiedDecisionCore f.status false true = none := by
          simp [fullOccupiedDecisionCore, hC, hP, hst, hfs]
        rw [hcore] at heval
        rw [heval]
        simp only [flightStatusOf, hf, Option.map_some']
        exact ⟨fun _ => hall', fun _ => by rw [hfs]⟩
  · intro hfo hnall
    have hC : (f.status == FlightStatus.Cancelled) = false := by rw [hfo]; rfl
    have hP : (f.status == FlightStatus.Completed) = false := by rw [hfo]; rfl
    have hst : (f.status == FlightStatus.FullOccupied) = true := by rw [hfo]; rfl
    have hallF : (nonFreeCount db fid == (seatsOfFlight db fid).length) = false := by
      rcases hb : (nonFreeCount db fid == (seatsOfFlight db fid).length) with _ | _
      · rfl
      · exact absurd (hocc.mp hb) hnall
    rw [hallF] at heval
    have hcore : fullOccupiedDecisionCore f.status false false
        = some FlightStatus.Active := by
      simp [fullOccupiedDecisionCore, hC, hP, hst]
    rw [hcore] at heval
    rw [heval]
    simp only [flightStatusOf, setFlightStatus, find?_map_update, hf, Option.map_some']
  · intro hterm
    have ht : (f.status == FlightStatus.Cancelled
        || f.status == FlightStatus.Completed) = true := by
      rcases hterm with h | h <;> simp [h]
    have hcore : fullOccupiedDecisionCore f.status false
        (nonFreeCount db fid == (seatsOfFlight db fid).length) = none := by
      simp [fullOccupiedDecisionCore, ht]
    rw [hcore] at heval
    rw [heval]

lemma updateFlightFullStatus_eval (db : BookingDB) (fid : Nat) (f : BookingFlight)
    (hf : db.flights.find? (fun x => x.fid == fid) = some f) :
    updateFlightFullStatus db fid =
      if f.status == FlightStatus.Cancelled || f.status == FlightStatus.Completed then db
      else
        let avail := (db.seats.filter (fun s => s.fid == fid
          && s.status == SeatStatus.Available
          && !(hasLiveTicket db.tickets db.orders s.sid))).length
        let newStatus := if avail == 0 then FlightStatus.FullOccupied else FlightStatus.Active
        if newStatus != f.status then setFlightStatus db fid newStatus else db := by
  unfold updateFlightFullStatus
  split
  · next heq => cases hf.symm.trans heq
  · next g heq =>
    have hg : g = f := Option.some.inj (heq.symm.trans hf)
    rw [hg]

lemma availCount_zero_iff (db : BookingDB) (fid : Nat) :
    ((db.seats.filter (fun s => s.fid == fid
        && s.status == SeatStatus.Available
        && !(hasLiveTicket db.tickets db.orders s.sid))).length = 0) ↔
      ∀ s ∈ seatsOfFlight db fid, s.status = SeatStatus.Available →
        LiveTicket db.tickets db.orders s.sid := by
  rw [List.length_eq_zero, List.filter_eq_nil_iff]
  constructor
  · intro h s hs hav
    rw [seatsOfFlight, List.mem_filter] at hs
    rw [← hasLiveTicket_iff]
    by_contra hlt
    have h3 : hasLiveTicket db.tickets db.orders s.sid = false := by
      revert hlt; cases hasLiveTicket db.tickets db.orders s.sid <;> simp
    apply h s hs.1
    have h1 : (s.fid == fid) = true := hs.2
    have h2 : (s.status == SeatStatus.Available) = true := beq_iff_eq.mpr hav
    simp [h1, h2, h3]
  · intro h s hs hp
    simp only [Bool.and_eq_true, beq_iff_eq, Bool.not_eq_true'] at hp
    have hmem : s ∈ seatsOfFlight db fid := by
      rw [seatsOfFlight, List.mem_filter]
      exact ⟨hs, beq_iff_eq.mpr hp.1.1⟩
    have hlt := h s hmem hp.1.2
    rw [← hasLiveTicket_iff] at hlt
    rw [hlt] at hp
    exact Bool.noConfusion hp.2

lemma flightStatusOf_branch (db : BookingDB) (fid : Nat) (f : BookingFlight)
    (ns : FlightStatus)
    (hf : db.flights.find? (fun x => x.fid == fid) = some f) :
    flightStatusOf (if ns != f.status then setFlightStatus db fid ns else db) fid
      = some ns := by
  split
  · simp only [flightStatusOf, setFlightStatus, find?_map_update, hf, Option.map_some']
  · next hne =>
    have h2 : ns = f.status := by simpa using hne
    simp only [flightStatusOf, hf, Option.map_some', h2]

lemma updateFlightFullStatus_spec (db : BookingDB) (fid : Nat) (f : BookingFlight)
    (hf : db.flights.find? (fun x => x.fid == fid) = some f) :
    (f.status ≠ FlightStatus.Cancelled → f.status ≠ FlightStatus.Completed →
      (flightStatusOf (updateFlightFullStatus db fid) fid = some FlightStatus.FullOccupied ↔
        ∀ s ∈ seatsOfFlight db fid, s.status = SeatStatus.Available →
          LiveTicket db.tickets db.orders s.sid)
      ∧ (¬ (∀ s ∈ seatsOfFlight db fid, s.status = SeatStatus.Available →
            LiveTicket db.tickets db.orders s.sid) →
          flightStatusOf (updateFlightFullStatus db fid) fid = some FlightStatus.Active))
    ∧ ((f.status = FlightStatus.Cancelled ∨ f.status = FlightStatus.Completed) →
        updateFlightFullStatus db fid = db) := by
  have heval := updateFlightFullStatus_eval db fid f hf
  constructor
  · intro hc1 hc2
    have hcond : (f.status == FlightStatus.Cancelled
        || f.status == FlightStatus.Completed) = false := by
      simp [hc1, hc2]
    rw [hcond] at heval
    rw [if_neg (by simp)] at heval
    dsimp only at heval
    have hstat : flightStatusOf (updateFlightFullStatus db fid) fid
        = some (if ((db.seats.filter (fun s => s.fid == fid
            && s.status == SeatStatus.Available
            && !(hasLiveTicket db.tickets db.orders s.sid))).length == 0)
          then FlightStatus.FullOccupied else FlightStatus.Active) := by
      rw [heval]
      exact flightStatusOf_branch db fid f _ hf
    rcases hz : ((db.seats.filter (fun s => s.fid == fid
        && s.status == SeatStatus.Available
        && !(hasLiveTicket db.tickets db.orders s.sid))).length == 0) with _ | _
    · have hz' : ¬ (∀ s ∈ seatsOfFlight db fid, s.status = SeatStatus.Available →
          LiveTicket db.tickets db.orders s.sid) := by
        rw [← availCount_zero_iff]
        exact beq_eq_false_iff_ne.mp hz
      rw [hz] at hstat
      rw [if_neg (by simp)] at hstat
      rw [hstat]
      constructor
      · constructor
        · intro hcontra
          cases Option.some.inj hcontra
        · intro h
          exact absurd h hz'
      · intro _
        rfl
    · have hz' : ∀ s ∈ seatsOfFlight db fid, s.status = SeatStatus.Available →
          LiveTicket db.tickets db.orders s.sid :=
        (availCount_zero_iff db fid).mp (beq_iff_eq.mp hz)
      rw [hz] at hstat
      rw [if_pos rfl] at hstat
      rw [hstat]
      exact ⟨⟨fun _ => hz', fun _ => rfl⟩, fun h => absurd hz' h⟩
  · intro hterm
    have ht : (f.status == FlightStatus.Cancelled
        || f.status == FlightStatus.Completed) = true := by
      rcases hterm with h | h <;> simp [h]
    rw [ht, if_pos rfl] at heval
    exact heval

/-- C4 amended, covering both cited implementations of the flight-status
reconciliation.  `_auto_update_full_occupied` (flights.py): for a flight
with at least one FlightSeat it leaves `'Cancelled'`/`'Completed'` flights
untouched and otherwise ends with status `'Full-Occupied'` iff every seat
is `'Sold'` or `'Blocked'`, reverting a `'Full-Occupied'` flight to
`'Active'` otherwise; a zero-seat flight it never touches.
`_update_flight_full_status` (booking.py): it never touches
`'Cancelled'`/`'Completed'` flights, and otherwise ends with
`'Full-Occupied'` iff no seat of the flight is both `'Available'` and free
of live tickets (so a zero-seat flight, or one whose `'Available'` seats
all still carry live tickets, IS marked `'Full-Occupied'`), ending with
`'Active'` otherwise. -/
theorem full_occupied_amended :
    (∀ (db : BookingDB) (fid : Nat) (f : BookingFlight),
      db.flights.find? (fun x => x.fid == fid) = some f →
      seatsOfFlight db fid ≠ [] →
      ((f.status ≠ FlightStatus.Cancelled → f.status ≠ FlightStatus.Completed →
        (flightStatusOf (autoUpdateFullOccupied db fid) fid = some FlightStatus.FullOccupied ↔
          ∀ s ∈ seatsOfFlight db fid,
            s.status = SeatStatus.Sold ∨ s.status = SeatStatus.Blocked))
      ∧ (f.status = FlightStatus.FullOccupied →
          ¬ (∀ s ∈ seatsOfFlight db fid,
              s.status = SeatStatus.Sold ∨ s.status = SeatStatus.Blocked) →
          flightStatusOf (autoUpdateFullOccupied db fid) fid = some FlightStatus.Active)
      ∧ ((f.status = FlightStatus.Cancelled ∨ f.status = FlightStatus.Completed) →
          autoUpdateFullOccupied db fid = db)))
    ∧ (∀ (db : BookingDB) (fid : Nat),
        seatsOfFlight db fid = [] → autoUpdateFullOccupied db fid = db)
    ∧ (∀ (db : BookingDB) (fid : Nat) (f : BookingFlight),
      db.flights.find? (fun x => x.fid == fid) = some f →
      ((f.status ≠ FlightStatus.Cancelled → f.status ≠ FlightStatus.Completed →
        (flightStatusOf (updateFlightFullStatus db fid) fid = some FlightStatus.FullOccupied ↔
          ∀ s ∈ seatsOfFlight db fid, s.status = SeatStatus.Available →
            LiveTicket db.tickets db.orders s.sid)
        ∧ (¬ (∀ s ∈ seatsOfFlight db fid, s.status = SeatStatus.Available →
              LiveTicket db.tickets db.orders s.sid) →
            flightStatusOf (updateFlightFullStatus db fid) fid = some FlightStatus.Active))
      ∧ ((f.status = FlightStatus.Cancelled ∨ f.status = FlightStatus.Completed) →
          updateFlightFullStatus db fid = db))) := by
  refine ⟨autoUpdateFullOccupied_spec, ?_, updateFlightFullStatus_spec⟩
  intro db fid hempty
  unfold autoUpdateFullOccupied
  split
  · rfl
  · next f heq =>
    have hcore : fullOccupiedDecisionCore f.status ((seatsOfFlight db fid).length == 0)
        (nonFreeCount db fid == (seatsOfFlight db fid).length) = none := by
      rw [hempty]
      simp [fullOccupiedDecisionCore]
    rw [hcore]

/-- Witness for the amended C4 theorem at a concrete state: both
reconciliation routines mark the fully occupied flight `'Full-Occupied'`. -/
theorem full_occupied_amended_witness :
    flightStatusOf (autoUpdateFullOccupied witC4DB 1) 1 = some FlightStatus.FullOccupied
    ∧ flightStatusOf (updateFlightFullStatus witC4DB 1) 1 = some FlightStatus.FullOccupied :=
  ⟨((full_occupied_amended.1 witC4DB 1 ⟨1, 0, FlightStatus.Active⟩ (by decide)
      (by decide)).1 (by decide) (by decide)).mpr (by decide),
   ((full_occupied_amended.2.2 witC4DB 1 ⟨1, 0, FlightStatus.Active⟩
      (by decide)).1 (by decide) (by decide)).1.mpr (by decide)⟩

lemma autoUpdateFullOccupied_parts (db : BookingDB) (fid : Nat) :
    (autoUpdateFullOccupied db fid).seats = db.seats
    ∧ (autoUpdateFullOccupied db fid).tickets = db.tickets
    ∧ (autoUpdateFullOccupied db fid).orders = db.orders := by
  unfold autoUpdateFullOccupied
  split
  · exact ⟨rfl, rfl, rfl⟩
  · split
    · exact ⟨rfl, rfl, rfl⟩
    · exact ⟨rfl, rfl, rfl⟩

lemma syncSeat_idem (t : List TicketRow) (o : List OrderRow) (fopt : Option Nat)
    (s : SeatRow) :
    syncSeat t o fopt (syncSeat t o fopt s) = syncSeat t o fopt s := by
  unfold syncSeat syncSeatPass1 syncSeatPass2
  rcases fopt with _ | fl
  · rcases hl : hasLiveTicket t o s.sid with _ | _ <;>
      rcases hst : s.status with _ | _ | _ <;>
        simp [seatInScope, hl, hst]
  · rcases hsc : (s.fid == fl) with _ | _ <;>
      rcases hl : hasLiveTicket t o s.sid with _ | _ <;>
        rcases hst : s.status with _ | _ | _ <;>
          simp [seatInScope, hl, hst, hsc]

lemma sync_fixed (db' : BookingDB) (fopt : Option Nat)
    (h : db'.seats.map (fun s => syncSeatPass2 db'.tickets db'.orders fopt
        (syncSeatPass1 db'.tickets db'.orders fopt s)) = db'.seats) :
    syncFlightSeatsFromOrders db' fopt = db' := by
  unfold syncFlightSeatsFromOrders
  rw [List.map_map]
  have hmap : List.map (syncSeatPass2 db'.tickets db'.orders fopt
      ∘ syncSeatPass1 db'.tickets db'.orders fopt) db'.seats = db'.seats := by
    have hc : List.map (syncSeatPass2 db'.tickets db'.orders fopt
        ∘ syncSeatPass1 db'.tickets db'.orders fopt) db'.seats
        = List.map (fun s => syncSeatPass2 db'.tickets db'.orders fopt
            (syncSeatPass1 db'.tickets db'.orders fopt s)) db'.seats :=
      List.map_congr_left (fun s _ => rfl)
    rw [hc, h]
  rw [hmap]

lemma autoUpdateFullOccupied_idem (db : BookingDB) (fid : Nat) :
    autoUpdateFullOccupied (autoUpdateFullOccupied db fid) fid
      = autoUpdateFullOccupied db fid := by
  rcases hf : db.flights.find? (fun x => x.fid == fid) with _ | f
  · have h1 : autoUpdateFullOccupied db fid = db := by
      unfold autoUpdateFullOccupied
      split
      · rfl
      · next g heq => cases hf.symm.trans heq
    rw [h1, h1]
  · have heval := autoUpdateFullOccupied_eval db fid f hf
    rcases hd : fullOccupiedDecisionCore f.status ((seatsOfFlight db fid).length == 0)
        (nonFreeCount db fid == (seatsOfFlight db fid).length) with _ | st
    · rw [hd] at heval
      have h1 : autoUpdateFullOccupied db fid = db := heval.trans rfl
      rw [h1, h1]
    · rw [hd] at heval
      have h1 : autoUpdateFullOccupied db fid = setFlightStatus db fid st :=
        heval.trans rfl
      have hcases : (st = FlightStatus.FullOccupied
            ∧ ((seatsOfFlight db fid).length == 0) = false
            ∧ (nonFreeCount db fid == (seatsOfFlight db fid).length) = true)
          ∨ (st = FlightStatus.Active
            ∧ ((seatsOfFlight db fid).length == 0) = false
            ∧ (nonFreeCount db fid == (seatsOfFlight db fid).length) = false) := by
        rcases he : ((seatsOfFlight db fid).length == 0) with _ | _ <;>
          rcases ha : (nonFreeCount db fid == (seatsOfFlight db fid).length) with _ | _ <;>
            rcases hs : f.status with _ | _ | _ | _ <;>
              rw [he, ha, hs] at hd <;>
                simp [fullOccupiedDecisionCore] at hd <;>
                  simp [← hd]
      have hf' : (setFlightStatus db fid st).flights.find? (fun x => x.fid == fid)
          = some { f with status := st } := by
        show (db.flights.map (fun x =>
          if x.fid == fid then { x with status := st } else x)).find?
            (fun x => x.fid == fid) = _
        rw [find?_map_update, hf]
        rfl
      have heval' := autoUpdateFullOccupied_eval (setFlightStatus db fid st) fid
        { f with status := st } hf'
      have hseats : seatsOfFlight (setFlightStatus db fid st) fid = seatsOfFlight db fid := rfl
      have hnf : nonFreeCount (setFlightStatus db fid st) fid = nonFreeCount db fid := rfl
      rw [hseats, hnf] at heval'
      rcases hcases with ⟨hst, he, ha⟩ | ⟨hst, he, ha⟩
      · subst hst
        rw [he, ha] at heval'
        have h2 : autoUpdateFullOccupied (setFlightStatus db fid FlightStatus.FullOccupied) fid
            = setFlightStatus db fid FlightStatus.FullOccupied := heval'.trans rfl
        rw [h1, h2]
      · subst hst
        rw [he, ha] at heval'
        have h2 : autoUpdateFullOccupied (setFlightStatus db fid FlightStatus.Active) fid
            = setFlightStatus db fid FlightStatus.Active := heval'.trans rfl
        rw [h1, h2]

lemma sync_after_reconcile (db : BookingDB) (fid : Nat) :
    syncFlightSeatsFromOrders (statusReconcile db fid) (some fid)
      = statusReconcile db fid := by
  apply sync_fixed
  obtain ⟨hS, hT, hO⟩ :=
    autoUpdateFullOccupied_parts (syncFlightSeatsFromOrders db (some fid)) fid
  unfold statusReconcile
  rw [hS, hT, hO]
  show (List.map (syncSeatPass2 db.tickets db.orders (some fid))
      (List.map (syncSeatPass1 db.tickets db.orders (some fid)) db.seats)).map
        (fun s => syncSeatPass2 db.tickets db.orders (some fid)
          (syncSeatPass1 db.tickets db.orders (some fid) s))
    = List.map (syncSeatPass2 db.tickets db.orders (some fid))
        (List.map (syncSeatPass1 db.tickets db.orders (some fid)) db.seats)
  simp only [List.map_map]
  apply List.map_congr_left
  intro s _
  exact syncSeat_idem db.tickets db.orders (some fid) s

/-- C5: the status-reconciliation pass (`_sync_flight_seats_from_orders`
followed by `_auto_update_full_occupied`) is idempotent: running it twice
with no intervening mutation yields exactly the same database state (hence
the same FlightSeat statuses and Flight statuses) as running it once. -/
theorem status_reconciliation_idempotent (db : BookingDB) (fid : Nat) :
    statusReconcile (statusReconcile db fid) fid = statusReconcile db fid := by
  show autoUpdateFullOccupied
      (syncFlightSeatsFromOrders (statusReconcile db fid) (some fid)) fid
    = statusReconcile db fid
  rw [sync_after_reconcile]
  show autoUpdateFullOccupied
      (autoUpdateFullOccupied (syncFlightSeatsFromOrders db (some fid)) fid) fid
    = statusReconcile db fid
  rw [autoUpdateFullOccupied_idem]
  rfl

lemma updateFlightFullStatus_seats (db : BookingDB) (fid : Nat) :
    (updateFlightFullStatus db fid).seats = db.seats := by
  unfold updateFlightFullStatus
  split
  · rfl
  · split
    · rfl
    · dsimp only
      split <;> split <;> rfl

/-- C6 counterexample: at exactly 72 hours before the stored departure the
manager cancellation SUCCEEDS (the code rejects only `time_to_dep <
timedelta(hours=72)`), while the claim says cancellation succeeds only when
the time remaining is strictly more than 72 hours. -/
theorem cancellation_window_cex :
    (managerCancelFlight cexC6CrewDB 1 0).2 = true
    ∧ ¬ ((4320 : Int) - 0 > 72 * 60) := by
  constructor
  · decide
  · omega

lemma cancelOrder_iff (db : BookingDB) (code : Nat) (email : String) (now : Int)
    (o : OrderRow) (f : BookingFlight)
    (ho : db.orders.find? (fun x => x.code == code && x.email == email) = some o)
    (hf : db.flights.find? (fun x => x.fid == o.flightId) = some f) :
    ((cancelOrder db code email now).2).isSome = true ↔
      (o.status ≠ OrderStatus.CancelledCustomer
        ∧ o.status ≠ OrderStatus.CancelledSystem
        ∧ f.dep - now > 36 * 60) := by
  unfold cancelOrder
  split
  · next heq => cases ho.symm.trans heq
  · next o' heq =>
    have homo : o = o' := Option.some.inj (ho.symm.trans heq)
    subst homo
    split
    · next heq2 => cases hf.symm.trans heq2
    · next f' heq2 =>
      have hff : f = f' := Option.some.inj (hf.symm.trans heq2)
      subst hff
      rcases hcc : (o.status == OrderStatus.CancelledCustomer
          || o.status == OrderStatus.CancelledSystem) with _ | _
      · rw [if_neg (by simp [hcc])]
        by_cases ht : f.dep - now ≤ 36 * 60
        · rw [if_pos ht]
          simp only [Option.isSome_none, Bool.false_eq_true, false_iff, not_and]
          intro _ _
          omega
        · rw [if_neg ht]
          simp only [Option.isSome_some, true_iff]
          simp only [Bool.or_eq_false_iff, beq_eq_false_iff_ne, ne_eq] at hcc
          exact ⟨hcc.1, hcc.2, by omega⟩
      · rw [if_pos rfl]
        simp only [Option.isSome_none, Bool.false_eq_true, false_iff, not_and]
        simp only [Bool.or_eq_true, beq_iff_eq] at hcc
        intro h1 h2
        rcases hcc with h | h
        · exact absurd h h1
        · exact absurd h h2

lemma guestCancelOrder_iff (db : BookingDB) (code : Nat) (email : String) (now : Int)
    (o : OrderRow) (f : BookingFlight)
    (ho : db.orders.find? (fun x => x.code == code && x.email == email && x.guest) = some o)
    (hf : db.flights.find? (fun x => x.fid == o.flightId) = some f) :
    ((guestCancelOrder db code email now).2).isSome = true ↔
      (o.status ≠ OrderStatus.CancelledCustomer
        ∧ o.status ≠ OrderStatus.CancelledSystem
        ∧ f.dep - now > 36 * 60) := by
  unfold guestCancelOrder
  split
  · next heq => cases ho.symm.trans heq
  · next o' heq =>
    have homo : o = o' := Option.some.inj (ho.symm.trans heq)
    subst homo
    split
    · next heq2 => cases hf.symm.trans heq2
    · next f' heq2 =>
      have hff : f = f' := Option.some.inj (hf.symm.trans heq2)
      subst hff
      rcases hcc : (o.status == OrderStatus.CancelledCustomer
          || o.status == OrderStatus.CancelledSystem) with _ | _
      · rw [if_neg (by simp [hcc])]
        by_cases ht : f.dep - now ≤ 36 * 60
        · rw [if_pos ht]
          simp only [Option.isSome_none, Bool.false_eq_true, false_iff, not_and]
          intro _ _
          omega
        · rw [if_neg ht]
          simp only [Option.isSome_some, true_iff]
          simp only [Bool.or_eq_false_iff, beq_eq_false_iff_ne, ne_eq] at hcc
          exact ⟨hcc.1, hcc.2, by omega⟩
      · rw [if_pos rfl]
        simp only [Option.isSome_none, Bool.false_eq_true, false_iff, not_and]
        simp only [Bool.or_eq_true, beq_iff_eq] at hcc
        intro h1 h2
        rcases hcc with h | h
        · exact absurd h h1
        · exact absurd h h2

lemma cancelOrder_cases (db : BookingDB) (code : Nat) (email : String) (now : Int) :
    (cancelOrder db code email now).1 = db
    ∨ ((cancelOrder db code email now).2).isSome = true := by
  unfold cancelOrder
  split
  · exact Or.inl rfl
  · split
    · exact Or.inl rfl
    · split
      · exact Or.inl rfl
      · split
        · exact Or.inl rfl
        · exact Or.inr rfl

lemma cancelOrder_reject_unchanged (db : BookingDB) (code : Nat) (email : String)
    (now : Int) (h : (cancelOrder db code email now).2 = none) :
    (cancelOrder db code email now).1 = db := by
  rcases cancelOrder_cases db code email now with h1 | h1
  · exact h1
  · rw [h] at h1
    simp at h1

lemma guestCancelOrder_cases (db : BookingDB) (code : Nat) (email : String) (now : Int) :
    (guestCancelOrder db code email now).1 = db
    ∨ ((guestCancelOrder db code email now).2).isSome = true := by
  unfold guestCancelOrder
  split
  · exact Or.inl rfl
  · split
    · exact Or.inl rfl
    · split
      · exact Or.inl rfl
      · split
        · exact Or.inl rfl
        · exact Or.inr rfl

lemma guestCancelOrder_reject_unchanged (db : BookingDB) (code : Nat) (email : String)
    (now : Int) (h : (guestCancelOrder db code email now).2 = none) :
    (guestCancelOrder db code email now).1 = db := by
  rcases guestCancelOrder_cases db code email now with h1 | h1
  · exact h1
  · rw [h] at h1
    simp at h1

lemma managerCancelFlight_iff (db : CrewDB) (fid : Nat) (now : Int) (f : CrewFlight)
    (hf : db.flights.find? (fun x => x.fid == fid) = some f) :
    (managerCancelFlight db fid now).2 = true ↔ f.dep - now ≥ 72 * 60 := by
  unfold managerCancelFlight
  split
  · next heq => cases hf.symm.trans heq
  · next f' heq =>
    have hff : f = f' := Option.some.inj (hf.symm.trans heq)
    subst hff
    by_cases h1 : f.dep ≤ now
    · rw [if_pos h1]
      simp only [Bool.false_eq_true, false_iff]
      omega
    · rw [if_neg h1]
      by_cases h2 : f.dep - now < 72 * 60
      · rw [if_pos h2]
        simp only [Bool.false_eq_true, false_iff]
        omega
      · rw [if_neg h2]
        simp only [true_iff]
        omega

lemma managerCancelFlight_cases (db : CrewDB) (fid : Nat) (now : Int) :
    (managerCancelFlight db fid now).1 = db
    ∨ (managerCancelFlight db fid now).2 = true := by
  unfold managerCancelFlight
  split
  · exact Or.inl rfl
  · split
    · exact Or.inl rfl
    · split
      · exact Or.inl rfl
      · exact Or.inr rfl

lemma managerCancelFlight_reject_unchanged (db : CrewDB) (fid : Nat) (now : Int)
    (h : (managerCancelFlight db fid now).2 = false) :
    (managerCancelFlight db fid now).1 = db := by
  rcases managerCancelFlight_cases db fid now with h1 | h1
  · exact h1
  · rw [h] at h1
    simp at h1

/-- C6 amended: customer-initiated cancellation (`cancel_order` /
`guest_cancel_order`) succeeds iff the order is not already cancelled and
the time to departure strictly exceeds 36 hours; manager flight
cancellation succeeds iff the time remaining to the stored departure is AT
LEAST 72 hours (exactly 72 hours is allowed, since the code rejects only
`time_to_dep < 72h`); every rejected cancellation leaves the database state
(orders, seats, flights, crew assignments) exactly as it was. -/
theorem cancellation_windows_amended :
    (∀ (db : BookingDB) (code : Nat) (email : String) (now : Int)
        (o : OrderRow) (f : BookingFlight),
      db.orders.find? (fun x => x.code == code && x.email == email) = some o →
      db.flights.find? (fun x => x.fid == o.flightId) = some f →
      (((cancelOrder db code email now).2).isSome = true ↔
        (o.status ≠ OrderStatus.CancelledCustomer
          ∧ o.status ≠ OrderStatus.CancelledSystem
          ∧ f.dep - now > 36 * 60)))
    ∧ (∀ (db : BookingDB) (code : Nat) (email : String) (now : Int),
        (cancelOrder db code email now).2 = none →
        (cancelOrder db code email now).1 = db)
    ∧ (∀ (db : BookingDB) (code : Nat) (email : String) (now : Int)
        (o : OrderRow) (f : BookingFlight),
      db.orders.find? (fun x => x.code == code && x.email == email && x.guest) = some o →
      db.flights.find? (fun x => x.fid == o.flightId) = some f →
      (((guestCancelOrder db code email now).2).isSome = true ↔
        (o.status ≠ OrderStatus.CancelledCustomer
          ∧ o.status ≠ OrderStatus.CancelledSystem
          ∧ f.dep - now > 36 * 60)))
    ∧ (∀ (db : BookingDB) (code : Nat) (email : String) (now : Int),
        (guestCancelOrder db code email now).2 = none →
        (guestCancelOrder db code email now).1 = db)
    ∧ (∀ (db : CrewDB) (fid : Nat) (now : Int) (f : CrewFlight),
        db.flights.find? (fun x => x.fid == fid) = some f →
        ((managerCancelFlight db fid now).2 = true ↔ f.dep - now ≥ 72 * 60))
    ∧ (∀ (db : CrewDB) (fid : Nat) (now : Int),
        (managerCancelFlight db fid now).2 = false →
        (managerCancelFlight db fid now).1 = db) :=
  ⟨cancelOrder_iff, cancelOrder_reject_unchanged, guestCancelOrder_iff,
    guestCancelOrder_reject_unchanged, managerCancelFlight_iff,
    managerCancelFlight_reject_unchanged⟩

/-- Witness for the amended C6 theorem at a concrete state: the
cancellation succeeds 10000 minutes before departure. -/
theorem cancellation_windows_amended_witness :
    ((cancelOrder witC6DB 1 "a@b.c" 0).2).isSome = true :=
  (cancellation_windows_amended.1 witC6DB 1 "a@b.c" 0
      ⟨1, OrderStatus.Active, 1, "a@b.c", false⟩ ⟨1, 10000, FlightStatus.Active⟩
      (by decide) (by decide)).mpr
    ⟨by decide, by decide, by decide⟩

lemma cancelOrder_success (db : BookingDB) (code : Nat) (email : String)
    (now : Int) (db' : BookingDB) (fee refund : ℚ)
    (h : cancelOrder db code email now = (db', some (fee, refund))) :
    fee = cancellationFee (orderTotal db code)
    ∧ refund = refundAmount (orderTotal db code)
    ∧ db'.seats = (setSeatStatusForOrder db code SeatStatus.Available).seats := by
  unfold cancelOrder at h
  split at h
  · simp at h
  · split at h
    · simp at h
    · split at h
      · simp at h
      · split at h
        · simp at h
        · next o heq f heq2 =>
          simp only [Prod.mk.injEq, Option.some.injEq] at h
          obtain ⟨hdb, hfee, hrefund⟩ := h
          refine ⟨hfee.symm, hrefund.symm, ?_⟩
          rw [← hdb]
          rw [updateFlightFullStatus_seats]
          rfl

/-- C7: on every successful customer cancellation the computed fee equals
`round(original_total * 0.05, 2)` (banker's rounding on the exact value),
the refund equals `original_total - fee` floored at 0, every FlightSeat
holding a ticket of the order returns to `'Available'`, and the
registered-customer path and the guest path compute identical fee and
refund for the same total. -/
theorem cancellation_fee_semantics :
    (∀ t : ℚ, guestCancellationFee t = cancellationFee t
      ∧ guestRefundAmount t = refundAmount t)
    ∧ (∀ t : ℚ, cancellationFee t = pyRound2 (t * (5 / 100))
      ∧ refundAmount t = max (t - cancellationFee t) 0)
    ∧ (∀ (db : BookingDB) (code : Nat) (email : String) (now : Int)
        (db' : BookingDB) (fee refund : ℚ),
        cancelOrder db code email now = (db', some (fee, refund)) →
          fee = pyRound2 (orderTotal db code * (5 / 100))
          ∧ refund = max (orderTotal db code - fee) 0
          ∧ ∀ s ∈ db'.seats,
              db.tickets.any (fun t => t.orderCode == code && t.seatId == s.sid) = true →
              s.status = SeatStatus.Available) := by
  refine ⟨fun t => ⟨rfl, rfl⟩, fun t => ⟨rfl, rfl⟩, ?_⟩
  intro db code email now db' fee refund h
  obtain ⟨hfee, hrefund, hseats⟩ := cancelOrder_success db code email now db' fee refund h
  refine ⟨hfee, by rw [hrefund, refundAmount, hfee], ?_⟩
  intro s hs hticket
  rw [hseats] at hs
  simp only [setSeatStatusForOrder, List.mem_map] at hs
  obtain ⟨s0, hs0, hmap⟩ := hs
  by_cases hc : db.tickets.any (fun t => t.orderCode == code && t.seatId == s0.sid) = true
  · rw [if_pos hc] at hmap
    rw [← hmap]
  · rw [if_neg hc] at hmap
    subst hmap
    exact absurd hticket hc

/-- Witness for C7 at a concrete state: the fee reported by cancelling the
order equals the rounding formula applied to the order total. -/
theorem cancellation_fee_semantics_witness :
    cancellationFee (orderTotal witC7DB 1) = pyRound2 (orderTotal witC7DB 1 * (5 / 100)) :=
  (cancellation_fee_semantics.2.2 witC7DB 1 "e@f.g" 0
    (cancelOrder witC7DB 1 "e@f.g" 0).1
    (cancellationFee (orderTotal witC7DB 1))
    (refundAmount (orderTotal witC7DB 1)) rfl).1

/-- C8 counterexample: at exactly 360 minutes the program's long-haul
classifiers disagree: `_flight_profile` (which uses `>=`) says `"long"`,
while `Is_Long_Route` and the creation-time `is_long` (which use `>`) say
short-haul — so it is false that all classifiers agree that 360 minutes is
short-haul. -/
theorem long_haul_boundary_cex :
    flightProfile 360 = "long"
    ∧ isLongCreation 360 = false
    ∧ isLongRouteHeader 360 = false := by
  refine ⟨?_, by decide, by decide⟩
  rw [flightProfile, if_pos (by decide)]

/-- C8 amended: `Is_Long_Route`, the creation-time `is_long` check and the
crew-window flag classify a route as long-haul iff its duration STRICTLY
exceeds 360 minutes (360 itself is short-haul there), whereas
`_flight_profile` classifies `duration >= 360` as `"long"` and therefore
disagrees with them at exactly 360 minutes; at creation time a long-haul
route (`> 360`) is only accepted on a Large aircraft. -/
theorem long_haul_boundary_amended (d : Int) :
    (isLongRouteHeader d = true ↔ d > 360)
    ∧ (isLongCreation d = true ↔ d > 360)
    ∧ (∀ dep arr : Int, crewWindowIsLong dep arr = isLongCreation (arr - dep))
    ∧ (flightProfile d = "long" ↔ d ≥ 360)
    ∧ (∀ size : Size, creationSizeGateOk d size = true ↔ (d > 360 → size = Size.Large)) := by
  refine ⟨?_, ?_, fun dep arr => rfl, ?_, ?_⟩
  · simp [isLongRouteHeader, LONG_FLIGHT_THRESHOLD_MINUTES]
  · simp [isLongCreation, LONG_FLIGHT_THRESHOLD_MINUTES]
  · by_cases h : d ≥ 360
    · rw [flightProfile, if_pos (by simpa [LONG_FLIGHT_THRESHOLD_MINUTES] using h)]
      simp [h]
    · rw [flightProfile, if_neg (by simpa [LONG_FLIGHT_THRESHOLD_MINUTES] using h)]
      constructor
      · intro hs
        exact absurd hs (by decide)
      · intro hd
        exact absurd hd h
  · intro size
    by_cases hd : d > 360
    · rcases size with _ | _
      · simp [creationSizeGateOk, isLongCreation, LONG_FLIGHT_THRESHOLD_MINUTES, hd]
      · simp [creationSizeGateOk, isLongCreation, LONG_FLIGHT_THRESHOLD_MINUTES, hd]
    · simp [creationSizeGateOk, isLongCreation, LONG_FLIGHT_THRESHOLD_MINUTES, hd]

/-- Witness for the amended C8 theorem at a concrete duration. -/
theorem long_haul_boundary_amended_witness :
    isLongRouteHeader 400 = true :=
  (long_haul_boundary_amended 400).1.mpr (by decide)

lemma find?_map_update_order (l : List OrderRow) (code : Nat) (st : OrderStatus) :
    (l.map (fun o => if o.code == code then { o with status := st } else o)).find?
        (fun o => o.code == code)
      = (l.find? (fun o => o.code == code)).map (fun o => { o with status := st }) := by
  induction l with
  | nil => rfl
  | cons x xs ih =>
    by_cases hx : x.code = code
    · simp only [List.map_cons, List.find?_cons, hx, beq_self_eq_true, if_true]
      simp
      exact hx.symm
    · have h : (x.code == code) = false := by
        rw [beq_eq_false_iff_ne]; exact hx
      simp only [List.map_cons, List.find?_cons, h, Bool.false_eq_true, if_false]
      simpa using ih

lemma updateFlightFullStatus_orders (db : BookingDB) (fid : Nat) :
    (updateFlightFullStatus db fid).orders = db.orders := by
  unfold updateFlightFullStatus
  split
  · rfl
  · split
    · rfl
    · dsimp only
      split <;> split <;> rfl

/-- C10: `_auto_complete_order_if_due` returns `False` and performs no
status update whenever the order's flight status is `'Cancelled'`; an
Active order on a cancelled flight is instead transitioned by the callers
(`customer_orders` / `booking_confirmation`) to `'Cancelled-System'` with
all of its seats set to `'Blocked'`. -/
theorem cancelled_flight_never_autocompleted :
    (∀ (o : OrderView) (t : Int), o.flightStatus = FlightStatus.Cancelled →
      autoCompleteOrderIfDue o t = (o, false))
    ∧ (∀ (db : BookingDB) (code : Nat) (o : OrderRow) (f : BookingFlight),
        db.orders.find? (fun x => x.code == code) = some o →
        db.flights.find? (fun x => x.fid == o.flightId) = some f →
        o.status = OrderStatus.Active → f.status = FlightStatus.Cancelled →
        ((customerOrdersCancelSystemStep db code).orders.find?
            (fun x => x.code == code)).map (fun x => x.status)
          = some OrderStatus.CancelledSystem
        ∧ ∀ s ∈ (customerOrdersCancelSystemStep db code).seats,
            db.tickets.any (fun t => t.orderCode == code && t.seatId == s.sid) = true →
            s.status = SeatStatus.Blocked) := by
  constructor
  · intro o t h
    rcases ha : (o.orderStatus != OrderStatus.Active) with _ | _
    · rw [autoCompleteOrderIfDue, if_neg (by simp [ha]), if_pos (by rw [h]; rfl)]
    · rw [autoCompleteOrderIfDue, if_pos ha]
  · intro db code o f ho hf hact hcan
    have hstep : customerOrdersCancelSystemStep db code
        = updateFlightFullStatus
            (setSeatStatusForOrder (setOrderStatus db code OrderStatus.CancelledSystem)
              code SeatStatus.Blocked) o.flightId := by
      unfold customerOrdersCancelSystemStep
      split
      · next heq => cases ho.symm.trans heq
      · next o' heq =>
        have homo : o = o' := Option.some.inj (ho.symm.trans heq)
        subst homo
        split
        · next heq2 => cases hf.symm.trans heq2
        · next f' heq2 =>
          have hff : f = f' := Option.some.inj (hf.symm.trans heq2)
          subst hff
          rw [if_pos (by rw [hact, hcan]; rfl)]
    rw [hstep]
    constructor
    · rw [updateFlightFullStatus_orders]
      show ((setOrderStatus db code OrderStatus.CancelledSystem).orders.find?
          (fun x => x.code == code)).map (fun x => x.status)
        = some OrderStatus.CancelledSystem
      show ((db.orders.map (fun x =>
          if x.code == code then { x with status := OrderStatus.CancelledSystem } else x)).find?
          (fun x => x.code == code)).map (fun x => x.status)
        = some OrderStatus.CancelledSystem
      rw [find?_map_update_order, ho]
      rfl
    · intro s hs hticket
      rw [updateFlightFullStatus_seats] at hs
      simp only [setSeatStatusForOrder, List.mem_map] at hs
      obtain ⟨s0, hs0, hmap⟩ := hs
      have htk : (setOrderStatus db code OrderStatus.CancelledSystem).tickets
          = db.tickets := rfl
      rw [htk] at hmap
      by_cases hc : db.tickets.any (fun t => t.orderCode == code && t.seatId == s0.sid) = true
      · rw [if_pos hc] at hmap
        rw [← hmap]
      · rw [if_neg hc] at hmap
        subst hmap
        exact absurd hticket hc

/-- Witness for C10 at a concrete state: the auto-complete helper leaves
the order untouched and reports no update. -/
theorem cancelled_flight_never_autocompleted_witness :
    autoCompleteOrderIfDue ⟨1, OrderStatus.Active, FlightStatus.Cancelled⟩ 0
      = (⟨1, OrderStatus.Active, FlightStatus.Cancelled⟩, false) :=
  cancelled_flight_never_autocompleted.1
    ⟨1, OrderStatus.Active, FlightStatus.Cancelled⟩ 0 rfl

end FlyTau
